import Mathlib

/-!
# crud-go: operation results, response mapping, request normalisation and handlers

A shallow embedding of the decision logic of the `crud` package
(`DataStructures.go`, `Utility.go`, `Handlers.go`, `UtilityHandlers.go`)
together with the properties its protocol description states about it.

Modelling conventions

* Go `int` values are only compared, never computed with, so they are `Int`.
* Go `string` values are only compared for equality and tested for emptiness,
  so they are `String`.
* A Go interface value that may be `nil` is an `Option`.
* A Go `map[string]string` that may be `nil` is an `Option` of an association
  list; the order in which `range` visits the keys is an explicit argument.
* The `http.ResponseWriter` is the list of write calls made on it so far.
* The functions of the Go standard library the package calls (`strings.ToLower`,
  `strconv.Atoi`, the JSON syntax check, the JSON body decoder) are arguments.
* A handler run returns the writer, the calls made on the service and the
  panic that leaves it; logging is left out.
-/

namespace http

/-- Status code `http.StatusOK` of the Go standard library. -/
def StatusOK : Nat := 200
/-- Status code `http.StatusCreated` of the Go standard library. -/
def StatusCreated : Nat := 201
/-- Status code `http.StatusBadRequest` of the Go standard library. -/
def StatusBadRequest : Nat := 400
/-- Status code `http.StatusNotFound` of the Go standard library. -/
def StatusNotFound : Nat := 404
/-- Status code `http.StatusMethodNotAllowed` of the Go standard library. -/
def StatusMethodNotAllowed : Nat := 405
/-- Status code `http.StatusConflict` of the Go standard library. -/
def StatusConflict : Nat := 409
/-- Status code `http.StatusInternalServerError` of the Go standard library. -/
def StatusInternalServerError : Nat := 500

end http

namespace crud

/-! ## DataStructures.go -/

/-- Go `type State int`: every integer is a possible state. -/
abbrev State := Int

/-- State `Ok`: no issues were found. -/
def Ok : State := 1
/-- State `ValidationFailed`: something invalid in the request. -/
def ValidationFailed : State := 2
/-- State `Error`: a generic error. -/
def Error : State := 3
/-- State `NotFound`: the entity does not exist. -/
def NotFound : State := 4
/-- State `Conflict`: the operation conflicts with the current state. -/
def Conflict : State := 5
/-- State `NotSupportedByResource`: the operation is not supported. -/
def NotSupportedByResource : State := 6
/-- State `Created`: same as `Ok`, the entity was created. -/
def Created : State := 7

/-- A non-nil Go `error`, observed through the text its `Error()` method
returns. -/
structure GoError where
  text : String
  deriving DecidableEq, Repr

/-- Method `Error()` of a Go `error`. -/
def GoError.Error (e : GoError) : String := e.text

/-- Go `errors.New`. -/
def errors.New (text : String) : GoError := ⟨text⟩

/-- Struct `ErrorDetails`, the error payload sent back to the caller. -/
structure ErrorDetails where
  Message : String
  deriving DecidableEq, Repr

/-- Struct `crudOperationResult`. The fields `error` and `value` are Go
interface values: `none` is `nil`. `V` is the type of the non-nil payloads. -/
structure crudOperationResult (V : Type) where
  state : State
  error : Option GoError
  value : Option V
  deriving DecidableEq, Repr

/-- Interface `OperationResult`. A result is observed only through its three
methods, each taken to return the same answer on every call, so an
arbitrary implementation is represented by the triple of those answers. -/
abbrev OperationResult (V : Type) := crudOperationResult V

/-- Method `State()` of `crudOperationResult`. -/
def crudOperationResult.State {V : Type} (c : crudOperationResult V) : State := c.state

/-- Method `Error()` of `crudOperationResult`. -/
def crudOperationResult.Error {V : Type} (c : crudOperationResult V) : Option GoError := c.error

/-- Method `Value()` of `crudOperationResult`. -/
def crudOperationResult.Value {V : Type} (c : crudOperationResult V) : Option V := c.value

/-- A Go `map[string]string` that is not nil: its entries. Lookup takes the
first entry with the key and deletion removes every entry with the key, so
the operations below behave as a map on any list. -/
abbrev GoMap := List (String × String)

/-- Map lookup with presence flag, Go `v, ok := m[k]`. -/
def GoMap.lookup : GoMap → String → Option String
  | [], _ => none
  | (k', v) :: rest, k => if k' = k then some v else GoMap.lookup rest k

/-- Map index expression, Go `m[k]`: the zero value `""` for an absent key. -/
def GoMap.index (m : GoMap) (k : String) : String := (GoMap.lookup m k).getD ""

/-- Builtin `delete(m, k)`. -/
def GoMap.delete (m : GoMap) (k : String) : GoMap := m.filter (fun e => !(e.1 == k))

/-- The keys of a map, in the order of its entries. -/
def GoMap.keys (m : GoMap) : List String := m.map Prod.fst

/-- Struct `DataSetRequest`. `Filters` is a Go map: `none` is the nil map. -/
structure DataSetRequest where
  PageSize : Int
  PageNumber : Int
  SortColumn : String
  SortDirection : String
  Filters : Option GoMap
  deriving DecidableEq, Repr

/-! ## The response writer -/

/-- The object handed to the response encoder: either the `*ErrorDetails`
built from the error or the value of the result. -/
inductive ResponseObject (V : Type) where
  | errorDetails (d : ErrorDetails)
  | value (v : V)
  deriving DecidableEq, Repr

/-- One write call on the wrapped response writer: `ww.WriteHeader(code)`,
which sends a status line and no body, or the library call
`servicefoundation.WriteResponse(ww, r, code, obj)`, which sends the status
and the JSON encoding of `obj`. -/
inductive Write (V : Type) where
  | WriteHeader (statusCode : Nat)
  | WriteResponse (statusCode : Nat) (responseObject : ResponseObject V)
  deriving DecidableEq, Repr

/-- The status code a write call sends. -/
def Write.statusCode {V : Type} : Write V → Nat
  | .WriteHeader c => c
  | .WriteResponse c _ => c

/-- The body a write call sends: `none` is the empty body. -/
def Write.body {V : Type} : Write V → Option (ResponseObject V)
  | .WriteHeader _ => none
  | .WriteResponse _ o => some o

/-- An `http.ResponseWriter`: the write calls made on it, oldest first. -/
abbrev ResponseWriter (V : Type) := List (Write V)

/-- The write calls that took the writer from `before` to `after`. -/
def written {V : Type} (before after : ResponseWriter V) : List (Write V) :=
  after.drop before.length

/-! ## Handlers.go -/

/-- Function `WriteOperationResult`: determine the status code and the
response object, then make one write call. The request `r` is only passed
on to the encoder and is left out. -/
def WriteOperationResult {V : Type} (w : ResponseWriter V) (opResult : OperationResult V) :
    ResponseWriter V :=
  let statusCode := http.StatusInternalServerError
  let responseObject : Option (ResponseObject V) :=
    match opResult.Error with
    | some e => some (.errorDetails { Message := e.Error })
    | none => none
  let (statusCode, responseObject) :=
    if opResult.State = Ok then
      (http.StatusOK,
        match opResult.Value with
        | some v => some (.value v)
        | none => responseObject)
    else if opResult.State = Created then (http.StatusCreated, responseObject)
    else if opResult.State = ValidationFailed then (http.StatusBadRequest, responseObject)
    else if opResult.State = NotFound then (http.StatusNotFound, none)
    else if opResult.State = Conflict then (http.StatusConflict, responseObject)
    else if opResult.State = NotSupportedByResource then
      (http.StatusMethodNotAllowed, responseObject)
    else if opResult.State = Error then (statusCode, responseObject)
    else (statusCode, responseObject)
  match responseObject with
  | none => w ++ [Write.WriteHeader statusCode]
  | some o => w ++ [Write.WriteResponse statusCode o]

/-! ## Utility.go -/

/-- Function `OkResult`: a result for state `Ok`; the value can be nil. -/
def OkResult {V : Type} (value : Option V) : OperationResult V :=
  { state := Ok, error := none, value := value }

/-- Function `CreatedResult`: a result for state `Created`. -/
def CreatedResult {V : Type} : OperationResult V :=
  { state := Created, error := none, value := none }

/-- Function `ErrorResult`: a result for state `Error`. -/
def ErrorResult {V : Type} (err : Option GoError) : OperationResult V :=
  { state := Error, error := err, value := none }

/-- Function `ValidationFailedResult`: a result for state `ValidationFailed`. -/
def ValidationFailedResult {V : Type} (err : Option GoError) : OperationResult V :=
  { state := ValidationFailed, error := err, value := none }

/-- Function `ConflictResult`: a result for state `Conflict`. -/
def ConflictResult {V : Type} (err : Option GoError) : OperationResult V :=
  { state := Conflict, error := err, value := none }

/-- Function `NotFoundResult`: a result for state `NotFound`. -/
def NotFoundResult {V : Type} : OperationResult V :=
  { state := NotFound, error := none, value := none }

/-- Function `NotSupportedByResourceResult`: a result for state
`NotSupportedByResource`. -/
def NotSupportedByResourceResult {V : Type} : OperationResult V :=
  { state := NotSupportedByResource, error := none, value := none }

/-- Function `ConstrainPagingRequest`: two successive guarded assignments to
`PageSize`. -/
def ConstrainPagingRequest (r : DataSetRequest) (minPageSize maxPageSize : Int) :
    DataSetRequest :=
  let r := if r.PageSize < minPageSize then { r with PageSize := minPageSize } else r
  let r := if r.PageSize > maxPageSize then { r with PageSize := maxPageSize } else r
  r

/-- Function `ConstrainSortColumns`: return at the first allowed column equal
to the sort column; after the loop assign the default column. -/
def ConstrainSortColumns (r : DataSetRequest) (defaultColumn : String) :
    List String → DataSetRequest
  | [] => { r with SortColumn := defaultColumn }
  | v :: rest => if v = r.SortColumn then r else ConstrainSortColumns r defaultColumn rest

/-- The inner loop of `ConstrainFilterColumns`: the final value of the flag
`isAllowed` for the key `k`. -/
def ConstrainFilterColumns.isAllowed (k : String) : List String → Bool
  | [] => false
  | v :: rest => if v = k then true else ConstrainFilterColumns.isAllowed k rest

/-- The outer loop of `ConstrainFilterColumns`, visiting the keys in the
given order: a key that is not allowed, or whose current value is empty, is
deleted from the map. Go `len` counts bytes and `String.length` characters;
both are zero exactly for the empty string. -/
def ConstrainFilterColumns.loop (allowedColumns : List String) : List String → GoMap → GoMap
  | [], m => m
  | k :: ks, m =>
    if !(ConstrainFilterColumns.isAllowed k allowedColumns) || (GoMap.index m k).length == 0 then
      ConstrainFilterColumns.loop allowedColumns ks (GoMap.delete m k)
    else
      ConstrainFilterColumns.loop allowedColumns ks m

/-- Function `ConstrainFilterColumns`, with the order in which
`range r.Filters` visits the keys made explicit. -/
def ConstrainFilterColumnsVisiting (order : List String) (r : DataSetRequest)
    (allowedColumns : List String) : DataSetRequest :=
  match r.Filters with
  | none => r
  | some m =>
    if m.length = 0 then r
    else { r with Filters := some (ConstrainFilterColumns.loop allowedColumns order m) }

/-- Function `ConstrainFilterColumns`, visiting the keys in the order of the
entries. -/
def ConstrainFilterColumns (r : DataSetRequest) (allowedColumns : List String) :
    DataSetRequest :=
  ConstrainFilterColumnsVisiting (GoMap.keys (r.Filters.getD [])) r allowedColumns

/-- A possible visiting order of `range filters`: the loop body deletes only
the key it is visiting, so every key of the map is produced exactly once. A
nil map has no key to visit. -/
def RangeOrder (filters : Option GoMap) (order : List String) : Prop :=
  order.Perm (GoMap.keys (filters.getD []))

/-- Whether a list is a possible visiting order can be computed. -/
instance RangeOrder.decidable (filters : Option GoMap) (order : List String) :
    Decidable (RangeOrder filters order) := by
  unfold RangeOrder
  infer_instance

/-! ## Handlers.go: request normalisation -/

/-- Constant `Asc` of type `SortDirection` (a Go string). -/
def Asc : String := "Asc"
/-- Constant `Desc` of type `SortDirection` (a Go string). -/
def Desc : String := "Desc"

/-- The functions of the Go standard library the normaliser calls. They are
arguments of the model, so every statement holds for the real ones.
`ToLower` is `strings.ToLower`; `Atoi` is `strconv.Atoi`, with `none` for a
non-nil error; `checkValid` is the syntax check `json.Unmarshal` starts with,
returning the syntax error of a text that is not valid JSON. -/
structure Stdlib where
  ToLower : String → String
  Atoi : String → Option Int
  checkValid : String → Option GoError

/-- One entry of the `url.Values` returned by `r.URL.Query()`: a key and its
values. The parser adds an entry only together with a value, so the slice of
values is never empty and `first` is `v[0]`. -/
structure url.Entry where
  key : String
  first : String
  rest : List String
  deriving DecidableEq, Repr

/-- The `url.Values` of a request, as the sequence of entries in the order in
which `range query` visits them. -/
abbrev url.Values := List url.Entry

/-- Go `json.Unmarshal(data, v)` for a `v` that is a `map[string]string`
passed by value. The library first checks the syntax and returns the syntax
error of a text that is not valid JSON; for a valid text it then rejects every
`v` that is not a pointer with an `InvalidUnmarshalError`. The map is not
written to in either case. Returns the error and the map. -/
def json.Unmarshal (checkValid : String → Option GoError) (data : String) (v : GoMap) :
    Option GoError × GoMap :=
  match checkValid data with
  | some e => (some e, v)
  | none => (some ⟨"json: Unmarshal(non-pointer map[string]string)"⟩, v)

/-- The body of the loop of `ExtractDataSetRequestFromURI` for the key `k`
and the first value `v0`: the `switch` on the lower-cased key. -/
def ExtractDataSetRequestFromURI.step (lib : Stdlib) (dsReq : DataSetRequest)
    (e : url.Entry) : DataSetRequest :=
  let k := e.key
  let v0 := e.first
  if lib.ToLower k = "pagesize" then
    match lib.Atoi v0 with
    | some intVal => if intVal > 0 then { dsReq with PageSize := intVal } else dsReq
    | none => dsReq
  else if lib.ToLower k = "pagenumber" then
    match lib.Atoi v0 with
    | some intVal => if intVal > 0 then { dsReq with PageNumber := intVal } else dsReq
    | none => dsReq
  else if lib.ToLower k = "sortcolumn" then { dsReq with SortColumn := v0 }
  else if lib.ToLower k = "sortdirection" then
    if lib.ToLower v0 = "desc" then { dsReq with SortDirection := Desc } else dsReq
  else if lib.ToLower k = "filters" then
    let jsonText := v0
    let filterKvs : GoMap := []
    match json.Unmarshal lib.checkValid jsonText filterKvs with
    | (none, filterKvs) => { dsReq with Filters := some filterKvs }
    | (some _, _) => dsReq
  else dsReq

/-- The request `ExtractDataSetRequestFromURI` starts from. -/
def ExtractDataSetRequestFromURI.defaults : DataSetRequest :=
  { PageSize := 15, PageNumber := 1, SortColumn := "id", SortDirection := Asc, Filters := none }

/-- Function `ExtractDataSetRequestFromURI`, on the query of the request: the
loop body is run on the entries in the order they are visited, starting from
the defaults. -/
def ExtractDataSetRequestFromURI (lib : Stdlib) (query : url.Values) : DataSetRequest :=
  query.foldl (ExtractDataSetRequestFromURI.step lib) ExtractDataSetRequestFromURI.defaults

/-! ### A sample of the library functions, for evaluating examples -/

/-- ASCII lower-casing of one character. -/
def sample.lowerChar (c : Char) : Char :=
  if 'A' ≤ c ∧ c ≤ 'Z' then Char.ofNat (c.toNat + 32) else c

/-- ASCII lower-casing; it agrees with `strings.ToLower` on ASCII text. -/
def sample.ToLower (s : String) : String := String.mk (s.data.map sample.lowerChar)

/-- The value of a run of decimal digits, `none` when a character is not a
digit. -/
def sample.digits : List Char → Nat → Option Nat
  | [], acc => some acc
  | c :: cs, acc =>
    if '0' ≤ c ∧ c ≤ '9' then sample.digits cs (acc * 10 + (c.toNat - 48)) else none

/-- Decimal parsing as `strconv.Atoi` does it with a 64-bit `int`: an optional
sign, at least one digit, and a value within the range of the type. -/
def sample.Atoi (s : String) : Option Int :=
  match s.data with
  | [] => none
  | '-' :: cs =>
    if cs = [] then none
    else match sample.digits cs 0 with
      | some n => if n ≤ 2 ^ 63 then some (-(n : Int)) else none
      | none => none
  | '+' :: cs =>
    if cs = [] then none
    else match sample.digits cs 0 with
      | some n => if n < 2 ^ 63 then some (n : Int) else none
      | none => none
  | cs =>
    match sample.digits cs 0 with
    | some n => if n < 2 ^ 63 then some (n : Int) else none
    | none => none

/-- A sample of the library functions. Its syntax check accepts every text:
`json.Unmarshal` returns an error for a map passed by value whether or not
the text is valid. -/
def sample.lib : Stdlib :=
  { ToLower := sample.ToLower, Atoi := sample.Atoi, checkValid := fun _ => none }

/-! ## Handlers.go and UtilityHandlers.go: the handlers -/

/-- What a call of a `Service` method does: it returns a result or it panics.
The value of a panic is a non-nil interface value (`panic(nil)` reaches
`recover` as a non-nil `*runtime.PanicNilError` since Go 1.21). -/
inductive Outcome (V P : Type) where
  | returns (opResult : OperationResult V)
  | panics (p : P)

/-- Interface `Service`: what each method does on its arguments at the time
of the request. An `EntityKey` is the route variable `id`, a string. -/
structure Service (V P E : Type) where
  GetAll : DataSetRequest → Outcome V P
  GetByID : String → Outcome V P
  Add : E → Outcome V P
  Update : String → E → Outcome V P
  Delete : String → Outcome V P

/-- A call of a `Service` method with its arguments. -/
inductive Call (E : Type) where
  | GetAll (request : DataSetRequest)
  | GetByID (id : String)
  | Add (entity : E)
  | Update (id : String) (entity : E)
  | Delete (id : String)
  deriving DecidableEq, Repr

/-- Type `RecoverFunc`, the function a handler defers. The first argument is
what `recover()` returns inside it: the value of the panic in flight, `none`
when the handler is not panicking. It returns the writer it leaves and
whether it called `recover()`. -/
abbrev RecoverFunc (V P : Type) := Option P → ResponseWriter V → ResponseWriter V × Bool

/-- What one run of a handler leaves: the response writer, the calls made on
the service, oldest first, and the panic that leaves the handler, if any. -/
structure Run (V P E : Type) where
  w : ResponseWriter V
  calls : List (Call E)
  panic : Option P

/-- The statement `defer recoverFunc("crudHandler", ctx, w, r)`: when the body
of the handler is left, by a return or by a panic, the recover function runs
on the writer as the body left it; a panic goes on unless it was recovered. -/
def deferRecover {V P E : Type} (recoverFunc : RecoverFunc V P) (panic : Option P)
    (w : ResponseWriter V) (calls : List (Call E)) : Run V P E :=
  match recoverFunc panic w with
  | (w', recovered) => { w := w', calls := calls, panic := if recovered then none else panic }

/-- Function `Recovery` of `UtilityHandlers.go`: when `recover()` returns a
non-nil value, write the result of `ErrorResult` on a fixed message. -/
def Recovery {V P : Type} : RecoverFunc V P := fun rec w =>
  match rec with
  | some _ =>
    (WriteOperationResult w (ErrorResult (some (errors.New "Panic while handling request"))),
      true)
  | none => (w, true)

/-- The recover function of `TestCreateCrudHandlerGetList_WithoutParameters`:
an empty body. -/
def TestCreateCrudHandlerGetList_WithoutParameters.recovery {V P : Type} : RecoverFunc V P :=
  fun _ w => (w, false)

/-- Handler built by `CreateCrudHandlerGetList`, run on a writer and the
query of the request. -/
def CreateCrudHandlerGetList {V P E : Type} (lib : Stdlib) (svc : Service V P E)
    (recoverFunc : RecoverFunc V P) (w : ResponseWriter V) (query : url.Values) : Run V P E :=
  let dsRequest := ExtractDataSetRequestFromURI lib query
  match svc.GetAll dsRequest with
  | .returns opResult =>
    deferRecover recoverFunc none (WriteOperationResult w opResult) [Call.GetAll dsRequest]
  | .panics p => deferRecover recoverFunc (some p) w [Call.GetAll dsRequest]

/-- Function `ReadEntityFromBody`. `Decode` is the decoder of the JSON library
on the body and the entity: it returns its error and the entity as it leaves
it. -/
def ReadEntityFromBody {B E : Type} (Decode : B → E → Option GoError × E) (body : B)
    (entity : E) : Option GoError × E :=
  match Decode body entity with
  | (some err, entity) => (some err, entity)
  | (none, entity) => (none, entity)

/-- Handler built by `CreateCrudHandlerCreateEntity`, run on a writer and the
body of the request. -/
def CreateCrudHandlerCreateEntity {V P E B : Type} (svc : Service V P E)
    (recoverFunc : RecoverFunc V P) (createFunc : Unit → E)
    (Decode : B → E → Option GoError × E) (w : ResponseWriter V) (body : B) : Run V P E :=
  let entity := createFunc ()
  match ReadEntityFromBody Decode body entity with
  | (some err, _) =>
    let opResult : OperationResult V := ValidationFailedResult
      (some (errors.New ("Failed to parse entity from HTTP body: " ++ err.Error)))
    deferRecover recoverFunc none (WriteOperationResult w opResult) []
  | (none, entity) =>
    match svc.Add entity with
    | .returns opResult =>
      deferRecover recoverFunc none (WriteOperationResult w opResult) [Call.Add entity]
    | .panics p => deferRecover recoverFunc (some p) w [Call.Add entity]

/-- Handler built by `CreateCrudHandlerUpdateEntity`, run on a writer, the
route variable `id` and the body of the request. -/
def CreateCrudHandlerUpdateEntity {V P E B : Type} (svc : Service V P E)
    (recoverFunc : RecoverFunc V P) (createFunc : Unit → E)
    (Decode : B → E → Option GoError × E) (w : ResponseWriter V) (idVar : String)
    (body : B) : Run V P E :=
  let entity := createFunc ()
  match ReadEntityFromBody Decode body entity with
  | (some err, _) =>
    let opResult : OperationResult V := ValidationFailedResult
      (some (errors.New ("Failed to parse entity from HTTP body: " ++ err.Error)))
    deferRecover recoverFunc none (WriteOperationResult w opResult) []
  | (none, entity) =>
    match svc.Update idVar entity with
    | .returns opResult =>
      deferRecover recoverFunc none (WriteOperationResult w opResult) [Call.Update idVar entity]
    | .panics p => deferRecover recoverFunc (some p) w [Call.Update idVar entity]

/-! ### A sample service and decoder, for evaluating examples -/

/-- A sample service whose methods all return. -/
def sample.svc : Service Nat String String :=
  { GetAll := fun _ => .returns (OkResult (some 0)),
    GetByID := fun _ => .returns NotFoundResult,
    Add := fun _ => .returns CreatedResult,
    Update := fun _ entity => .returns (OkResult (some entity.length)),
    Delete := fun _ => .returns NotSupportedByResourceResult }

/-- A sample service whose `GetAll` panics. -/
def sample.panicking : Service Nat String String :=
  { sample.svc with GetAll := fun _ => .panics "boom" }

/-- A sample decoder: the empty body fails with the error EOF, any other body
becomes the entity. -/
def sample.Decode (body entity : String) : Option GoError × String :=
  if body = "" then (some ⟨"EOF"⟩, entity) else (none, body)

/-! ## Descriptions the properties are stated against -/

/-- The results the seven constructors of `Utility.go` can return. -/
inductive Constructed {V : Type} : OperationResult V → Prop
  | ok (value : Option V) : Constructed (OkResult value)
  | created : Constructed CreatedResult
  | error (err : Option GoError) : Constructed (ErrorResult err)
  | validationFailed (err : Option GoError) : Constructed (ValidationFailedResult err)
  | conflict (err : Option GoError) : Constructed (ConflictResult err)
  | notFound : Constructed NotFoundResult
  | notSupportedByResource : Constructed NotSupportedByResourceResult

/-- The status codes sent by the write calls of one handler step. -/
def statusWritten {V : Type} (before after : ResponseWriter V) : List Nat :=
  (written before after).map Write.statusCode

/-- The bodies sent by the write calls of one handler step. -/
def bodyWritten {V : Type} (before after : ResponseWriter V) :
    List (Option (ResponseObject V)) :=
  (written before after).map Write.body

/-- The error payload `{message: e.Error()}`. -/
def errorBody {V : Type} (e : GoError) : ResponseObject V :=
  .errorDetails { Message := e.Error }

/-- The test the loop body of `ConstrainFilterColumns` makes on the key `k`
of the map `m`: the key stays when it is allowed and its value is not empty. -/
def ConstrainFilterColumns.kept (allowedColumns : List String) (m : GoMap) (k : String) : Bool :=
  ConstrainFilterColumns.isAllowed k allowedColumns && !((GoMap.index m k).length == 0)

/-- What one entry does to the page size or the page number `cur`: an entry
whose key lower-cases to `name` and whose first value parses as a positive
integer replaces it. -/
def pageStep (lib : Stdlib) (name : String) (cur : Int) (e : url.Entry) : Int :=
  if lib.ToLower e.key = name then
    match lib.Atoi e.first with
    | some n => if n > 0 then n else cur
    | none => cur
  else cur

/-- What one entry does to the sort direction `cur`: an entry whose key
lower-cases to `sortdirection` and whose first value lower-cases to `desc`
sets it to `Desc`. -/
def directionStep (lib : Stdlib) (cur : String) (e : url.Entry) : String :=
  if lib.ToLower e.key = "sortdirection" ∧ lib.ToLower e.first = "desc" then Desc else cur

/-- The keys the normaliser recognises, in lower case. -/
def recognisedKeys : List String :=
  ["pagesize", "pagenumber", "sortcolumn", "sortdirection", "filters"]

/-- What one entry does to the sort column `cur`: an entry whose key
lower-cases to `sortcolumn` replaces it by its first value. -/
def sortColumnStep (lib : Stdlib) (cur : String) (e : url.Entry) : String :=
  if lib.ToLower e.key = "sortcolumn" then e.first else cur

/-! ## Theorems -/

/-- The write calls appended to a writer are exactly the ones written. -/
theorem written_append {V : Type} (w ws : ResponseWriter V) : written w (w ++ ws) = ws := by
  simp [written]

/-- The single write call of `WriteOperationResult`, by case on the state. -/
theorem writeOperationResult_written {V : Type} (w : ResponseWriter V) (s : State)
    (e : Option GoError) (v : Option V) :
    ∃ ev, WriteOperationResult w ⟨s, e, v⟩ = w ++ [ev] := by
  unfold WriteOperationResult
  simp only [crudOperationResult.State, crudOperationResult.Error, crudOperationResult.Value]
  split <;> exact ⟨_, rfl⟩

/-- The status code of the single write call depends on the state only. -/
theorem writeOperationResult_status {V : Type} (w : ResponseWriter V) (s : State)
    (e : Option GoError) (v : Option V) :
    statusWritten w (WriteOperationResult w ⟨s, e, v⟩) =
      [if s = Ok then 200 else if s = Created then 201 else if s = ValidationFailed then 400
        else if s = NotFound then 404 else if s = Conflict then 409
        else if s = NotSupportedByResource then 405 else 500] := by
  unfold WriteOperationResult statusWritten
  simp only [crudOperationResult.State, crudOperationResult.Error, crudOperationResult.Value]
  split_ifs <;> cases e <;> cases v <;>
    simp [written_append, Write.statusCode, http.StatusOK, http.StatusCreated,
      http.StatusBadRequest, http.StatusNotFound, http.StatusConflict,
      http.StatusMethodNotAllowed, http.StatusInternalServerError]

/-- The body of the single write call, by the order of the overrides. -/
theorem writeOperationResult_body {V : Type} (w : ResponseWriter V) (s : State)
    (e : Option GoError) (v : Option V) :
    bodyWritten w (WriteOperationResult w ⟨s, e, v⟩) =
      [if s = NotFound then none
        else if s = Ok ∧ v.isSome then v.map ResponseObject.value
        else e.map errorBody] := by
  unfold WriteOperationResult bodyWritten
  simp only [crudOperationResult.State, crudOperationResult.Error, crudOperationResult.Value]
  by_cases h1 : s = Ok
  · subst h1
    cases e <;> cases v <;> simp [written_append, Write.body, Ok, NotFound, errorBody]
  · simp only [h1, if_false, false_and]
    split_ifs <;> cases e <;> cases v <;>
      simp_all [written_append, Write.body, errorBody, Ok, Created, ValidationFailed, NotFound,
        Conflict, NotSupportedByResource, Error]

/-- Claim C1: the status code written by `WriteOperationResult` is the same for
any two results with the same state, whatever their errors and values, and it
is 200 for Ok, 201 for Created, 400 for ValidationFailed, 404 for NotFound,
409 for Conflict, 405 for NotSupportedByResource and 500 for Error. -/
theorem C1_status_by_state {V : Type} :
    (∀ (w w' : ResponseWriter V) (s : State) (e e' : Option GoError) (v v' : Option V),
      statusWritten w (WriteOperationResult w ⟨s, e, v⟩) =
        statusWritten w' (WriteOperationResult w' ⟨s, e', v'⟩)) ∧
    (∀ (w : ResponseWriter V) (e : Option GoError) (v : Option V),
      statusWritten w (WriteOperationResult w ⟨Ok, e, v⟩) = [200] ∧
      statusWritten w (WriteOperationResult w ⟨Created, e, v⟩) = [201] ∧
      statusWritten w (WriteOperationResult w ⟨ValidationFailed, e, v⟩) = [400] ∧
      statusWritten w (WriteOperationResult w ⟨NotFound, e, v⟩) = [404] ∧
      statusWritten w (WriteOperationResult w ⟨Conflict, e, v⟩) = [409] ∧
      statusWritten w (WriteOperationResult w ⟨NotSupportedByResource, e, v⟩) = [405] ∧
      statusWritten w (WriteOperationResult w ⟨Error, e, v⟩) = [500]) := by
  refine ⟨fun w w' s e e' v v' => ?_, fun w e v => ?_⟩
  · rw [writeOperationResult_status, writeOperationResult_status]
  · simp only [writeOperationResult_status]
    decide

/-- Claim C2: the body written by `WriteOperationResult` is empty when the
state is NotFound, even with an error attached; it is the value when the state
is Ok and the value is non-nil; in every other case it is the error payload
`{message: error text}` when the error is non-nil and empty when it is nil. -/
theorem C2_body_rule {V : Type} :
    (∀ (w : ResponseWriter V) (e : Option GoError) (v : Option V),
      bodyWritten w (WriteOperationResult w ⟨NotFound, e, v⟩) = [none]) ∧
    (∀ (w : ResponseWriter V) (e : Option GoError) (x : V),
      bodyWritten w (WriteOperationResult w ⟨Ok, e, some x⟩) = [some (.value x)]) ∧
    (∀ (w : ResponseWriter V) (s : State) (err : GoError) (v : Option V),
      s ≠ NotFound → ¬ (s = Ok ∧ v ≠ none) →
      bodyWritten w (WriteOperationResult w ⟨s, some err, v⟩) =
        [some (.errorDetails { Message := err.Error })]) ∧
    (∀ (w : ResponseWriter V) (s : State) (v : Option V),
      s ≠ NotFound → ¬ (s = Ok ∧ v ≠ none) →
      bodyWritten w (WriteOperationResult w ⟨s, none, v⟩) = [none]) := by
  refine ⟨fun w e v => ?_, fun w e x => ?_, fun w s err v h1 h2 => ?_, fun w s v h1 h2 => ?_⟩
  · simp [writeOperationResult_body]
  · simp [writeOperationResult_body, Ok, NotFound]
  · have h3 : ¬ (s = Ok ∧ v.isSome = true) := by
      rintro ⟨a, b⟩
      exact h2 ⟨a, by cases v <;> simp_all⟩
    simp [writeOperationResult_body, h1, h3, errorBody]
  · have h3 : ¬ (s = Ok ∧ v.isSome = true) := by
      rintro ⟨a, b⟩
      exact h2 ⟨a, by cases v <;> simp_all⟩
    simp [writeOperationResult_body, h1, h3]

/-- Witness for C2: a Conflict result carrying the error "dup" is answered
with the error payload, and a nil-valued Ok result without error with an
empty body. -/
theorem C2_body_rule_witness :
    (Conflict ≠ NotFound ∧ ¬ (Conflict = Ok ∧ (none : Option Nat) ≠ none) ∧
      bodyWritten [] (WriteOperationResult ([] : ResponseWriter Nat)
        ⟨Conflict, some (errors.New "dup"), none⟩) =
        [some (.errorDetails { Message := "dup" })]) ∧
    (Ok ≠ NotFound ∧ ¬ (Ok = Ok ∧ (none : Option Nat) ≠ none) ∧
      bodyWritten [] (WriteOperationResult ([] : ResponseWriter Nat) ⟨Ok, none, none⟩) =
        [none]) :=
  ⟨⟨by decide, by decide,
      C2_body_rule.2.2.1 [] Conflict (errors.New "dup") none (by decide) (by decide)⟩,
    ⟨by decide, by decide, C2_body_rule.2.2.2 [] Ok none (by decide) (by decide)⟩⟩

/-- Counterexample to C3 as stated: a Created result that carries the error
"boom" is answered with status 201 and the error payload, not an empty body. -/
theorem C3_created_error_counterexample :
    statusWritten [] (WriteOperationResult ([] : ResponseWriter Nat)
      ⟨Created, some (errors.New "boom"), none⟩) = [201] ∧
    bodyWritten [] (WriteOperationResult ([] : ResponseWriter Nat)
      ⟨Created, some (errors.New "boom"), none⟩) =
        [some (.errorDetails { Message := "boom" })] ∧
    ¬ (bodyWritten [] (WriteOperationResult ([] : ResponseWriter Nat)
      ⟨Created, some (errors.New "boom"), none⟩) = [none]) := by
  decide

/-- Claim C3, amended: for a Created result the status is 201 and the value is
ignored; the body is empty when the error is nil and is the error payload
`{message: error text}` when the error is non-nil. -/
theorem C3_created_response {V : Type} (w : ResponseWriter V) (e : Option GoError)
    (v : Option V) :
    statusWritten w (WriteOperationResult w ⟨Created, e, v⟩) = [201] ∧
    bodyWritten w (WriteOperationResult w ⟨Created, e, v⟩) =
      [e.map (fun err => .errorDetails { Message := err.Error })] := by
  constructor
  · rw [writeOperationResult_status]
    decide
  · rw [writeOperationResult_body]
    simp [Created, Ok, NotFound, errorBody]
    rfl

/-- Claim C4: each constructor returns exactly the state, error and value of
the constructor table, so on every constructed result a non-nil value implies
state Ok or Created and a non-nil error implies state Error, ValidationFailed
or Conflict. -/
theorem C4_constructor_table {V : Type} :
    (∀ v : Option V, OkResult v = ⟨Ok, none, v⟩) ∧
    (CreatedResult : OperationResult V) = ⟨Created, none, none⟩ ∧
    (∀ e : Option GoError, (ErrorResult e : OperationResult V) = ⟨Error, e, none⟩) ∧
    (∀ e : Option GoError,
      (ValidationFailedResult e : OperationResult V) = ⟨ValidationFailed, e, none⟩) ∧
    (∀ e : Option GoError, (ConflictResult e : OperationResult V) = ⟨Conflict, e, none⟩) ∧
    (NotFoundResult : OperationResult V) = ⟨NotFound, none, none⟩ ∧
    (NotSupportedByResourceResult : OperationResult V) =
      ⟨NotSupportedByResource, none, none⟩ ∧
    (∀ r : OperationResult V, Constructed r →
      (r.Value ≠ none → r.State = Ok ∨ r.State = Created) ∧
      (r.Error ≠ none → r.State = Error ∨ r.State = ValidationFailed ∨ r.State = Conflict)) := by
  refine ⟨fun _ => rfl, rfl, fun _ => rfl, fun _ => rfl, fun _ => rfl, rfl, rfl, ?_⟩
  intro r hr
  cases hr <;>
    simp [OkResult, CreatedResult, ErrorResult, ValidationFailedResult, ConflictResult,
      NotFoundResult, NotSupportedByResourceResult, crudOperationResult.State,
      crudOperationResult.Error, crudOperationResult.Value]

/-- Witness for C4: the result of `OkResult` on the value 1 is constructed, its
value is non-nil and its state is Ok; the result of `ConflictResult` on the
error "dup" is constructed, its error is non-nil and its state is Conflict. -/
theorem C4_constructor_table_witness :
    (Constructed (OkResult (some (1 : Nat))) ∧ (OkResult (some (1 : Nat))).Value ≠ none ∧
      ((OkResult (some (1 : Nat))).State = Ok ∨ (OkResult (some (1 : Nat))).State = Created)) ∧
    (Constructed (ConflictResult (some (errors.New "dup")) : OperationResult Nat) ∧
      (ConflictResult (some (errors.New "dup")) : OperationResult Nat).Error ≠ none ∧
      ((ConflictResult (some (errors.New "dup")) : OperationResult Nat).State = Error ∨
        (ConflictResult (some (errors.New "dup")) : OperationResult Nat).State
          = ValidationFailed ∨
        (ConflictResult (some (errors.New "dup")) : OperationResult Nat).State = Conflict)) :=
  ⟨⟨Constructed.ok _, by decide,
      (C4_constructor_table.2.2.2.2.2.2.2 _ (Constructed.ok (some (1 : Nat)))).1 (by decide)⟩,
    ⟨Constructed.conflict _, by decide,
      (C4_constructor_table.2.2.2.2.2.2.2 _
        (Constructed.conflict (some (errors.New "dup")))).2 (by decide)⟩⟩

/-! ### Maps and the filter loop -/

/-- A string has length zero exactly when it is the empty string. -/
theorem string_length_eq_zero (s : String) : s.length = 0 ↔ s = "" := by
  constructor
  · intro h
    apply String.ext
    exact List.length_eq_zero.mp h
  · rintro rfl
    rfl

/-- The flag `isAllowed` is set exactly for the members of the allowed list. -/
theorem isAllowed_iff (k : String) (allowed : List String) :
    ConstrainFilterColumns.isAllowed k allowed = true ↔ k ∈ allowed := by
  induction allowed with
  | nil => simp [ConstrainFilterColumns.isAllowed]
  | cons a rest ih =>
    by_cases h : a = k
    · simp [ConstrainFilterColumns.isAllowed, h]
    · have h2 : ¬ k = a := fun x => h x.symm
      simp [ConstrainFilterColumns.isAllowed, h, h2, ih]

/-- Lookup after removing the entries whose key fails a test. -/
theorem lookup_filter_key (p : String → Bool) (m : GoMap) (k : String) :
    GoMap.lookup (m.filter (fun e => p e.1)) k = if p k then GoMap.lookup m k else none := by
  induction m with
  | nil => simp [GoMap.lookup]
  | cons e rest ih =>
    obtain ⟨a, b⟩ := e
    by_cases hp : p a = true
    · by_cases ha : a = k
      · subst ha
        simp [List.filter_cons, hp, GoMap.lookup]
      · simp [List.filter_cons, hp, GoMap.lookup, ha, ih]
    · by_cases ha : a = k
      · subst ha
        simp [List.filter_cons, hp, GoMap.lookup, ih]
      · simp [List.filter_cons, hp, GoMap.lookup, ha, ih]

/-- The test on a key is not affected by removing entries of other keys. -/
theorem kept_filter_key (allowed : List String) (p : String → Bool) (m : GoMap) (k : String)
    (hp : p k = true) :
    ConstrainFilterColumns.kept allowed (m.filter (fun e => p e.1)) k =
      ConstrainFilterColumns.kept allowed m k := by
  simp [ConstrainFilterColumns.kept, GoMap.index, lookup_filter_key, hp]

/-- A key the loop keeps has an entry value that is found by lookup. -/
theorem kept_iff (allowed : List String) (m : GoMap) (k : String) :
    ConstrainFilterColumns.kept allowed m k = true ↔ k ∈ allowed ∧ GoMap.index m k ≠ "" := by
  simp [ConstrainFilterColumns.kept, isAllowed_iff, string_length_eq_zero]

/-- The loop removes, among the entries whose key is visited, those failing
the test made on the map the loop started from. -/
theorem loop_eq_filter (allowed order : List String) (m : GoMap) :
    ConstrainFilterColumns.loop allowed order m =
      m.filter (fun e => !(decide (e.1 ∈ order)) || ConstrainFilterColumns.kept allowed m e.1) := by
  induction order generalizing m with
  | nil => simp [ConstrainFilterColumns.loop]
  | cons k ks ih =>
    have hstep : ConstrainFilterColumns.loop allowed (k :: ks) m =
        ConstrainFilterColumns.loop allowed ks
          (m.filter (fun e => (fun x => !(x == k) || ConstrainFilterColumns.kept allowed m k) e.1)) := by
      by_cases hk : ConstrainFilterColumns.kept allowed m k = true
      · have hk2 := hk
        simp only [ConstrainFilterColumns.kept, Bool.and_eq_true, Bool.not_eq_true'] at hk2
        simp [ConstrainFilterColumns.loop, hk, hk2.1, hk2.2]
      · have hk2 : ConstrainFilterColumns.kept allowed m k = false := by simpa using hk
        have hk3 : (!(ConstrainFilterColumns.isAllowed k allowed) ||
            (GoMap.index m k).length == 0) = true := by
          simp only [ConstrainFilterColumns.kept] at hk2
          cases h1 : ConstrainFilterColumns.isAllowed k allowed <;>
            cases h2 : ((GoMap.index m k).length == 0) <;> simp_all
        rw [ConstrainFilterColumns.loop, if_pos hk3]
        simp [GoMap.delete, hk2]
    rw [hstep, ih, List.filter_filter]
    apply List.filter_congr
    intro e _
    by_cases hek : e.1 = k
    · by_cases hk : ConstrainFilterColumns.kept allowed m k = true
      · have := kept_filter_key allowed
          (fun x => !(x == k) || ConstrainFilterColumns.kept allowed m k) m k (by simp [hk])
        simp [hek, this, hk]
      · have hk2 : ConstrainFilterColumns.kept allowed m k = false := by simpa using hk
        simp [hek, hk2]
    · have := kept_filter_key allowed
        (fun x => !(x == k) || ConstrainFilterColumns.kept allowed m k) m e.1 (by simp [hek])
      simp [hek, this]

/-- When every key of the map is visited the loop is the removal of the
entries failing the test. -/
theorem loop_eq_filter_kept (allowed order : List String) (m : GoMap)
    (h : ∀ e ∈ m, e.1 ∈ order) :
    ConstrainFilterColumns.loop allowed order m =
      m.filter (fun e => ConstrainFilterColumns.kept allowed m e.1) := by
  rw [loop_eq_filter]
  apply List.filter_congr
  intro e he
  simp [h e he]

/-- A visiting order of a non-nil map reaches every entry. -/
theorem rangeOrder_mem (m : GoMap) (order : List String) (h : RangeOrder (some m) order) :
    ∀ e ∈ m, e.1 ∈ order := by
  intro e he
  have : e.1 ∈ GoMap.keys m := List.mem_map_of_mem Prod.fst he
  exact (List.Perm.mem_iff h).mpr this

/-- The request returned by `ConstrainFilterColumns` for a non-nil map whose
keys are all visited. -/
theorem constrainFilterColumnsVisiting_some (order : List String) (r : DataSetRequest)
    (allowed : List String) (m : GoMap) (hF : r.Filters = some m)
    (ho : RangeOrder r.Filters order) :
    ConstrainFilterColumnsVisiting order r allowed =
      { r with Filters := some (m.filter (fun e => ConstrainFilterColumns.kept allowed m e.1)) } := by
  rw [hF] at ho
  unfold ConstrainFilterColumnsVisiting
  rw [hF]
  by_cases hm : m.length = 0
  · have : m = [] := List.length_eq_zero.mp hm
    subst this
    cases r
    simp_all
  · simp only [hm, if_false]
    rw [loop_eq_filter_kept allowed order m (rangeOrder_mem m order ho)]

/-- The request returned by `ConstrainFilterColumns` is the same for every
order in which the keys are visited. -/
theorem constrainFilterColumnsVisiting_order (order : List String) (r : DataSetRequest)
    (allowed : List String) (ho : RangeOrder r.Filters order) :
    ConstrainFilterColumnsVisiting order r allowed = ConstrainFilterColumns r allowed := by
  cases hF : r.Filters with
  | none =>
    unfold ConstrainFilterColumns ConstrainFilterColumnsVisiting
    rw [hF]
  | some m =>
    have hk : RangeOrder r.Filters (GoMap.keys (r.Filters.getD [])) := List.Perm.refl _
    unfold ConstrainFilterColumns
    rw [constrainFilterColumnsVisiting_some order r allowed m hF ho,
      constrainFilterColumnsVisiting_some _ r allowed m hF hk]

/-- The sort column after `ConstrainSortColumns`, as a membership test. -/
theorem constrainSortColumns_eq (r : DataSetRequest) (d : String) (allowed : List String) :
    ConstrainSortColumns r d allowed =
      if r.SortColumn ∈ allowed then r else { r with SortColumn := d } := by
  induction allowed with
  | nil => simp [ConstrainSortColumns]
  | cons a rest ih =>
    by_cases h : a = r.SortColumn
    · simp [ConstrainSortColumns, h]
    · have h2 : ¬ r.SortColumn = a := fun x => h x.symm
      simp [ConstrainSortColumns, h, h2, ih]

/-! ### The request constrainers -/

/-- Counterexample to C5 as stated: with minPageSize 10 and maxPageSize 5 a
page size of 0 becomes 5, which is below minPageSize. -/
theorem C5_inverted_bounds_counterexample :
    (ConstrainPagingRequest ⟨0, 1, "id", "Asc", none⟩ 10 5).PageSize = 5 ∧
    ¬ (10 ≤ (ConstrainPagingRequest ⟨0, 1, "id", "Asc", none⟩ 10 5).PageSize ∧
        (ConstrainPagingRequest ⟨0, 1, "id", "Asc", none⟩ 10 5).PageSize ≤ 5) := by
  decide

/-- Claim C5, amended: when minPageSize is at most maxPageSize the page size
after `ConstrainPagingRequest` lies in the inclusive range, equals the old page
size when that was in the range, is minPageSize when the old one was below and
maxPageSize when it was above. -/
theorem C5_paging_clamp (r : DataSetRequest) (minPageSize maxPageSize : Int)
    (h : minPageSize ≤ maxPageSize) :
    minPageSize ≤ (ConstrainPagingRequest r minPageSize maxPageSize).PageSize ∧
    (ConstrainPagingRequest r minPageSize maxPageSize).PageSize ≤ maxPageSize ∧
    (minPageSize ≤ r.PageSize ∧ r.PageSize ≤ maxPageSize →
      (ConstrainPagingRequest r minPageSize maxPageSize).PageSize = r.PageSize) ∧
    (r.PageSize < minPageSize →
      (ConstrainPagingRequest r minPageSize maxPageSize).PageSize = minPageSize) ∧
    (maxPageSize < r.PageSize →
      (ConstrainPagingRequest r minPageSize maxPageSize).PageSize = maxPageSize) := by
  unfold ConstrainPagingRequest
  simp only
  split_ifs <;> simp_all <;> omega

/-- Witness for C5: bounds 1 and 100 on a page size of 105 give 100. -/
theorem C5_paging_clamp_witness :
    (1 : Int) ≤ 100 ∧ (100 : Int) < 105 ∧
    (ConstrainPagingRequest ⟨105, 1, "id", "Asc", none⟩ 1 100).PageSize = 100 :=
  ⟨by decide, by decide,
    (C5_paging_clamp ⟨105, 1, "id", "Asc", none⟩ 1 100 (by decide)).2.2.2.2 (by decide)⟩

/-- Claim C6: after `ConstrainSortColumns` the sort column is the old one when
it is a member of the allowed columns and the default column otherwise. -/
theorem C6_sort_column (r : DataSetRequest) (defaultColumn : String)
    (allowedColumns : List String) :
    (ConstrainSortColumns r defaultColumn allowedColumns).SortColumn =
      if r.SortColumn ∈ allowedColumns then r.SortColumn else defaultColumn := by
  rw [constrainSortColumns_eq]
  split_ifs <;> rfl

/-- Counterexample to C7 as stated: when the empty string is itself an allowed
column, an empty sort column is kept and not replaced by the default. -/
theorem C7_empty_allowed_counterexample :
    (ConstrainSortColumns ⟨15, 1, "", "Asc", none⟩ "col1" ["", "col2"]).SortColumn = "" ∧
    ¬ ((ConstrainSortColumns ⟨15, 1, "", "Asc", none⟩ "col1" ["", "col2"]).SortColumn
        = "col1") := by
  decide

/-- Claim C7, amended: when the empty string is not among the allowed columns,
a request whose sort column is empty gets the default column. -/
theorem C7_empty_sort_column (r : DataSetRequest) (defaultColumn : String)
    (allowedColumns : List String) (hr : r.SortColumn = "")
    (ha : "" ∉ allowedColumns) :
    (ConstrainSortColumns r defaultColumn allowedColumns).SortColumn = defaultColumn := by
  rw [constrainSortColumns_eq, hr]
  simp [ha]

/-- Witness for C7: the empty sort column with allowed columns col1 and col2
becomes the default col1. -/
theorem C7_empty_sort_column_witness :
    "" ∉ ["col1", "col2"] ∧
    (ConstrainSortColumns ⟨15, 1, "", "Asc", none⟩ "col1" ["col1", "col2"]).SortColumn
      = "col1" :=
  ⟨by decide, C7_empty_sort_column ⟨15, 1, "", "Asc", none⟩ "col1" ["col1", "col2"] rfl
    (by decide)⟩

/-- Claim C8: after `ConstrainFilterColumns` on a non-nil filter mapping F,
whatever the order in which the keys are visited, the mapping holds exactly
the entries of F whose key is allowed and whose value is not empty, each with
its original value. -/
theorem C8_filter_entries (order : List String) (r : DataSetRequest)
    (allowedColumns : List String) (F : GoMap) (hF : r.Filters = some F)
    (ho : RangeOrder r.Filters order) :
    ∃ F', (ConstrainFilterColumnsVisiting order r allowedColumns).Filters = some F' ∧
      ∀ k v : String, GoMap.lookup F' k = some v ↔
        (GoMap.lookup F k = some v ∧ k ∈ allowedColumns ∧ v ≠ "") := by
  rw [constrainFilterColumnsVisiting_some order r allowedColumns F hF ho]
  refine ⟨_, rfl, fun k v => ?_⟩
  rw [lookup_filter_key (fun x => ConstrainFilterColumns.kept allowedColumns F x) F k]
  by_cases hk : ConstrainFilterColumns.kept allowedColumns F k = true
  · have hk2 := (kept_iff allowedColumns F k).mp hk
    rw [if_pos hk]
    constructor
    · intro h
      refine ⟨h, hk2.1, ?_⟩
      have := hk2.2
      simp only [GoMap.index, h, Option.getD_some] at this
      exact this
    · exact fun h => h.1
  · rw [if_neg hk]
    constructor
    · intro h
      cases h
    · rintro ⟨h1, h2, h3⟩
      exact absurd ((kept_iff allowedColumns F k).mpr ⟨h2, by simpa [GoMap.index, h1] using h3⟩) hk

/-- Witness for C8: of the entries col1 = a, col2 = "" and bad = x with allowed
columns col1 and col2, visited in the order bad, col2, col1, only col1 = a
stays. -/
theorem C8_filter_entries_witness :
    RangeOrder (some [("col1", "a"), ("col2", ""), ("bad", "x")]) ["bad", "col2", "col1"] ∧
    ∃ F', (ConstrainFilterColumnsVisiting ["bad", "col2", "col1"]
        ⟨15, 1, "id", "Asc", some [("col1", "a"), ("col2", ""), ("bad", "x")]⟩
        ["col1", "col2"]).Filters = some F' ∧
      ∀ k v : String, GoMap.lookup F' k = some v ↔
        (GoMap.lookup [("col1", "a"), ("col2", ""), ("bad", "x")] k = some v ∧
          k ∈ ["col1", "col2"] ∧ v ≠ "") :=
  ⟨by decide,
    C8_filter_entries ["bad", "col2", "col1"]
      ⟨15, 1, "id", "Asc", some [("col1", "a"), ("col2", ""), ("bad", "x")]⟩
      ["col1", "col2"] [("col1", "a"), ("col2", ""), ("bad", "x")] rfl (by decide)⟩

/-- Claim C9: `ConstrainFilterColumns` leaves a nil filter mapping nil and an
empty non-nil mapping empty and non-nil, a non-nil mapping never becomes nil,
and when every entry has a disallowed key or an empty value the mapping is
left empty and non-nil. -/
theorem C9_filter_nil_and_empty :
    (∀ (order : List String) (r : DataSetRequest) (allowedColumns : List String),
      r.Filters = none →
      ConstrainFilterColumnsVisiting order r allowedColumns = r ∧
      (ConstrainFilterColumnsVisiting order r allowedColumns).Filters = none) ∧
    (∀ (order : List String) (r : DataSetRequest) (allowedColumns : List String),
      r.Filters = some [] →
      ConstrainFilterColumnsVisiting order r allowedColumns = r ∧
      (ConstrainFilterColumnsVisiting order r allowedColumns).Filters = some []) ∧
    (∀ (order : List String) (r : DataSetRequest) (allowedColumns : List String) (F : GoMap),
      r.Filters = some F →
      (ConstrainFilterColumnsVisiting order r allowedColumns).Filters ≠ none) ∧
    (∀ (order : List String) (r : DataSetRequest) (allowedColumns : List String) (F : GoMap),
      r.Filters = some F → RangeOrder r.Filters order →
      (∀ e ∈ F, e.1 ∉ allowedColumns ∨ e.2 = "") →
      (ConstrainFilterColumnsVisiting order r allowedColumns).Filters = some []) := by
  refine ⟨fun order r a h => ?_, fun order r a h => ?_, fun order r a F h => ?_,
    fun order r a F h ho hall => ?_⟩
  · have : ConstrainFilterColumnsVisiting order r a = r := by
      unfold ConstrainFilterColumnsVisiting
      rw [h]
    rw [this]
    exact ⟨rfl, h⟩
  · have : ConstrainFilterColumnsVisiting order r a = r := by
      unfold ConstrainFilterColumnsVisiting
      rw [h]
      rfl
    rw [this]
    exact ⟨rfl, h⟩
  · unfold ConstrainFilterColumnsVisiting
    rw [h]
    simp only
    split_ifs <;> simp [h]
  · rw [constrainFilterColumnsVisiting_some order r a F h ho]
    simp only [Option.some.injEq, List.filter_eq_nil_iff]
    intro e he hk
    have hk2 := (kept_iff a F e.1).mp hk
    -- the first entry with this key decides the value found by lookup
    have hfirst : ∀ (m : GoMap), (∀ x ∈ m, x.1 ∉ a ∨ x.2 = "") → ∀ k, k ∈ a →
        GoMap.index m k = "" := by
      intro m
      induction m with
      | nil => intro _ k _; rfl
      | cons x rest ih =>
        intro hx k hka
        obtain ⟨x1, x2⟩ := x
        by_cases hxk : x1 = k
        · subst hxk
          rcases hx (x1, x2) (List.mem_cons_self _ _) with h1 | h1
          · exact absurd hka h1
          · simpa [GoMap.index, GoMap.lookup] using h1
        · have := ih (fun y hy => hx y (List.mem_cons_of_mem _ hy)) k hka
          simpa [GoMap.index, GoMap.lookup, hxk] using this
    exact hk2.2 (hfirst F hall e.1 hk2.1)

/-- Witness for C9: the nil mapping stays nil, the empty mapping stays empty,
and the single disallowed entry colnotallowed = somefiltervalue leaves an
empty non-nil mapping. -/
theorem C9_filter_nil_and_empty_witness :
    (ConstrainFilterColumnsVisiting [] ⟨15, 1, "id", "Asc", none⟩ ["col1", "col2"]).Filters
      = none ∧
    (ConstrainFilterColumnsVisiting [] ⟨15, 1, "id", "Asc", some []⟩ ["col1", "col2"]).Filters
      = some [] ∧
    (ConstrainFilterColumnsVisiting ["colnotallowed"]
      ⟨15, 1, "id", "Asc", some [("colnotallowed", "somefiltervalue")]⟩
      ["col1", "col2"]).Filters ≠ none ∧
    (ConstrainFilterColumnsVisiting ["colnotallowed"]
      ⟨15, 1, "id", "Asc", some [("colnotallowed", "somefiltervalue")]⟩
      ["col1", "col2"]).Filters = some [] :=
  ⟨(C9_filter_nil_and_empty.1 [] ⟨15, 1, "id", "Asc", none⟩ ["col1", "col2"] rfl).2,
    (C9_filter_nil_and_empty.2.1 [] ⟨15, 1, "id", "Asc", some []⟩ ["col1", "col2"] rfl).2,
    C9_filter_nil_and_empty.2.2.1 ["colnotallowed"]
      ⟨15, 1, "id", "Asc", some [("colnotallowed", "somefiltervalue")]⟩ ["col1", "col2"]
      [("colnotallowed", "somefiltervalue")] rfl,
    C9_filter_nil_and_empty.2.2.2 ["colnotallowed"]
      ⟨15, 1, "id", "Asc", some [("colnotallowed", "somefiltervalue")]⟩ ["col1", "col2"]
      [("colnotallowed", "somefiltervalue")] rfl (by decide) (by decide)⟩

/-- Claim C10: each constrainer is idempotent for every choice of arguments:
applying it a second time with the same arguments, in any visiting order of
the filter keys, returns the request the first application returned. -/
theorem C10_constrainers_idempotent :
    (∀ (r : DataSetRequest) (minPageSize maxPageSize : Int),
      ConstrainPagingRequest (ConstrainPagingRequest r minPageSize maxPageSize)
        minPageSize maxPageSize = ConstrainPagingRequest r minPageSize maxPageSize) ∧
    (∀ (r : DataSetRequest) (defaultColumn : String) (allowedColumns : List String),
      ConstrainSortColumns (ConstrainSortColumns r defaultColumn allowedColumns)
        defaultColumn allowedColumns = ConstrainSortColumns r defaultColumn allowedColumns) ∧
    (∀ (r : DataSetRequest) (allowedColumns : List String) (first second : List String),
      RangeOrder r.Filters first →
      RangeOrder (ConstrainFilterColumnsVisiting first r allowedColumns).Filters second →
      ConstrainFilterColumnsVisiting second
        (ConstrainFilterColumnsVisiting first r allowedColumns) allowedColumns =
        ConstrainFilterColumnsVisiting first r allowedColumns) := by
  refine ⟨fun r lo hi => ?_, fun r d a => ?_, fun r a o1 o2 h1 h2 => ?_⟩
  · obtain ⟨ps, pn, sc, sd, f⟩ := r
    unfold ConstrainPagingRequest
    simp only
    split_ifs <;> simp_all
  · rw [constrainSortColumns_eq r d a]
    by_cases h : r.SortColumn ∈ a
    · rw [if_pos h, constrainSortColumns_eq, if_pos h]
    · rw [if_neg h, constrainSortColumns_eq]
      split_ifs <;> rfl
  · cases hF : r.Filters with
    | none =>
      have e1 : ConstrainFilterColumnsVisiting o1 r a = r := by
        unfold ConstrainFilterColumnsVisiting
        rw [hF]
      rw [e1]
      unfold ConstrainFilterColumnsVisiting
      rw [hF]
    | some m =>
      have e1 := constrainFilterColumnsVisiting_some o1 r a m hF h1
      rw [e1] at h2 ⊢
      rw [constrainFilterColumnsVisiting_some o2 _ a _ rfl h2]
      simp only [List.filter_filter]
      congr 2
      apply List.filter_congr
      intro e _
      by_cases hk : ConstrainFilterColumns.kept a m e.1 = true
      · have := kept_filter_key a (fun x => ConstrainFilterColumns.kept a m x) m e.1 hk
        simp [this, hk]
      · have hk2 : ConstrainFilterColumns.kept a m e.1 = false := by simpa using hk
        simp [hk2]

/-- Witness for C10: filtering col1 = a, bad = x with allowed column col1 twice,
visiting bad then col1 the first time and col1 the second time, gives the
request of the first application. -/
theorem C10_constrainers_idempotent_witness :
    RangeOrder (some [("col1", "a"), ("bad", "x")]) ["bad", "col1"] ∧
    RangeOrder (ConstrainFilterColumnsVisiting ["bad", "col1"]
      ⟨15, 1, "id", "Asc", some [("col1", "a"), ("bad", "x")]⟩ ["col1"]).Filters ["col1"] ∧
    ConstrainFilterColumnsVisiting ["col1"]
      (ConstrainFilterColumnsVisiting ["bad", "col1"]
        ⟨15, 1, "id", "Asc", some [("col1", "a"), ("bad", "x")]⟩ ["col1"]) ["col1"] =
      ConstrainFilterColumnsVisiting ["bad", "col1"]
        ⟨15, 1, "id", "Asc", some [("col1", "a"), ("bad", "x")]⟩ ["col1"] :=
  ⟨by decide, by decide,
    C10_constrainers_idempotent.2.2 ⟨15, 1, "id", "Asc", some [("col1", "a"), ("bad", "x")]⟩
      ["col1"] ["bad", "col1"] ["col1"] (by decide) (by decide)⟩

/-! ### Independence of the constrainers -/

/-- Claim C11: each constrainer changes only its own field of the request
(PageSize, SortColumn, Filters), its new value depends on that field only,
and any two constrainers applied in either order give the same request. -/
theorem C11_constrainers_independent :
    (∀ (r : DataSetRequest) (lo hi : Int),
      ConstrainPagingRequest r lo hi =
        { r with PageSize := (ConstrainPagingRequest r lo hi).PageSize }) ∧
    (∀ (r : DataSetRequest) (d : String) (a : List String),
      ConstrainSortColumns r d a =
        { r with SortColumn := (ConstrainSortColumns r d a).SortColumn }) ∧
    (∀ (order : List String) (r : DataSetRequest) (a : List String),
      ConstrainFilterColumnsVisiting order r a =
        { r with Filters := (ConstrainFilterColumnsVisiting order r a).Filters }) ∧
    (∀ (r r' : DataSetRequest) (lo hi : Int), r.PageSize = r'.PageSize →
      (ConstrainPagingRequest r lo hi).PageSize = (ConstrainPagingRequest r' lo hi).PageSize) ∧
    (∀ (r r' : DataSetRequest) (d : String) (a : List String), r.SortColumn = r'.SortColumn →
      (ConstrainSortColumns r d a).SortColumn = (ConstrainSortColumns r' d a).SortColumn) ∧
    (∀ (order : List String) (r r' : DataSetRequest) (a : List String),
      r.Filters = r'.Filters →
      (ConstrainFilterColumnsVisiting order r a).Filters =
        (ConstrainFilterColumnsVisiting order r' a).Filters) ∧
    (∀ (r : DataSetRequest) (lo hi : Int) (d : String) (a : List String),
      ConstrainSortColumns (ConstrainPagingRequest r lo hi) d a =
        ConstrainPagingRequest (ConstrainSortColumns r d a) lo hi) ∧
    (∀ (order : List String) (r : DataSetRequest) (lo hi : Int) (a : List String),
      ConstrainFilterColumnsVisiting order (ConstrainPagingRequest r lo hi) a =
        ConstrainPagingRequest (ConstrainFilterColumnsVisiting order r a) lo hi) ∧
    (∀ (order : List String) (r : DataSetRequest) (d : String) (a a' : List String),
      ConstrainFilterColumnsVisiting order (ConstrainSortColumns r d a) a' =
        ConstrainSortColumns (ConstrainFilterColumnsVisiting order r a') d a) := by
  refine ⟨?_, ?_, ?_, ?_, ?_, ?_, ?_, ?_, ?_⟩
  · intro r lo hi
    unfold ConstrainPagingRequest
    simp only
    split_ifs <;> rfl
  · intro r d a
    rw [constrainSortColumns_eq]
    split_ifs <;> rfl
  · intro order r a
    unfold ConstrainFilterColumnsVisiting
    cases hF : r.Filters with
    | none => simp [← hF]
    | some m =>
      simp only
      split_ifs
      · simp [← hF]
      · rfl
  · intro r r' lo hi h
    unfold ConstrainPagingRequest
    simp only [h]
    split_ifs <;> simp_all
  · intro r r' d a h
    rw [constrainSortColumns_eq, constrainSortColumns_eq, h]
    split_ifs <;> simp_all
  · intro order r r' a h
    unfold ConstrainFilterColumnsVisiting
    rw [h]
    cases r'.Filters with
    | none => simp [h]
    | some m =>
      simp only
      split_ifs <;> simp_all
  · intro r lo hi d a
    rw [constrainSortColumns_eq, constrainSortColumns_eq]
    unfold ConstrainPagingRequest
    simp only
    split_ifs <;> simp_all
  · intro order r lo hi a
    unfold ConstrainFilterColumnsVisiting ConstrainPagingRequest
    cases hF : r.Filters with
    | none =>
      simp only
      split_ifs <;> simp_all
    | some m =>
      simp only
      split_ifs <;> simp_all
  · intro order r d a a'
    rw [constrainSortColumns_eq, constrainSortColumns_eq]
    unfold ConstrainFilterColumnsVisiting
    cases hF : r.Filters with
    | none =>
      simp only
      split_ifs <;> simp_all
    | some m =>
      simp only
      split_ifs <;> simp_all

/-- Witness for C11: two requests that agree on the page size get the same
page size from the bounds 1 and 100, two that agree on the sort column the same
sort column, and two that agree on the filters the same filters, whatever
their other fields. -/
theorem C11_constrainers_independent_witness :
    (ConstrainPagingRequest ⟨105, 1, "id", "Asc", none⟩ 1 100).PageSize =
      (ConstrainPagingRequest ⟨105, 7, "name", "Desc", some [("col1", "a")]⟩ 1 100).PageSize ∧
    (ConstrainSortColumns ⟨105, 1, "id", "Asc", none⟩ "col1" ["col1", "col2"]).SortColumn =
      (ConstrainSortColumns ⟨15, 7, "id", "Desc", some [("col1", "a")]⟩ "col1"
        ["col1", "col2"]).SortColumn ∧
    (ConstrainFilterColumnsVisiting ["bad"] ⟨105, 1, "id", "Asc", some [("bad", "x")]⟩
        ["col1"]).Filters =
      (ConstrainFilterColumnsVisiting ["bad"] ⟨15, 7, "name", "Desc", some [("bad", "x")]⟩
        ["col1"]).Filters :=
  ⟨C11_constrainers_independent.2.2.2.1 ⟨105, 1, "id", "Asc", none⟩
      ⟨105, 7, "name", "Desc", some [("col1", "a")]⟩ 1 100 rfl,
    C11_constrainers_independent.2.2.2.2.1 ⟨105, 1, "id", "Asc", none⟩
      ⟨15, 7, "id", "Desc", some [("col1", "a")]⟩ "col1" ["col1", "col2"] rfl,
    C11_constrainers_independent.2.2.2.2.2.1 ["bad"] ⟨105, 1, "id", "Asc", some [("bad", "x")]⟩
      ⟨15, 7, "name", "Desc", some [("bad", "x")]⟩ ["col1"] rfl⟩

/-! ### The request normaliser -/

/-- A projection of a fold that only depends on the projection of the
accumulator is the fold of the projected steps. -/
theorem foldl_project {α β γ : Type} (f : β → α → β) (g : γ → α → γ) (π : β → γ)
    (h : ∀ b a, π (f b a) = g (π b) a) (l : List α) (b : β) :
    π (l.foldl f b) = l.foldl g (π b) := by
  induction l generalizing b with
  | nil => rfl
  | cons a rest ih => simp only [List.foldl_cons, ih, h]

/-- The page size after one entry. -/
theorem step_pageSize (lib : Stdlib) (r : DataSetRequest) (e : url.Entry) :
    (ExtractDataSetRequestFromURI.step lib r e).PageSize = pageStep lib "pagesize" r.PageSize e := by
  unfold ExtractDataSetRequestFromURI.step pageStep json.Unmarshal
  simp only
  split_ifs <;> (try cases lib.Atoi e.first) <;> (try cases lib.checkValid e.first) <;>
    simp <;> split_ifs <;> rfl

/-- The page number after one entry. -/
theorem step_pageNumber (lib : Stdlib) (r : DataSetRequest) (e : url.Entry) :
    (ExtractDataSetRequestFromURI.step lib r e).PageNumber =
      pageStep lib "pagenumber" r.PageNumber e := by
  unfold ExtractDataSetRequestFromURI.step pageStep json.Unmarshal
  simp only
  split_ifs <;> (try cases lib.Atoi e.first) <;> (try cases lib.checkValid e.first) <;>
    simp_all <;> split_ifs <;> rfl

/-- The sort direction after one entry. -/
theorem step_sortDirection (lib : Stdlib) (r : DataSetRequest) (e : url.Entry) :
    (ExtractDataSetRequestFromURI.step lib r e).SortDirection =
      directionStep lib r.SortDirection e := by
  unfold ExtractDataSetRequestFromURI.step directionStep json.Unmarshal
  simp only
  split_ifs <;> (try cases lib.Atoi e.first) <;> (try cases lib.checkValid e.first) <;>
    simp_all <;> split_ifs <;> rfl

/-- No entry changes the filters: the decoder is handed the map by value and
always returns an error. -/
theorem step_filters (lib : Stdlib) (r : DataSetRequest) (e : url.Entry) :
    (ExtractDataSetRequestFromURI.step lib r e).Filters = r.Filters := by
  unfold ExtractDataSetRequestFromURI.step json.Unmarshal
  simp only
  split_ifs <;> (try cases lib.Atoi e.first) <;> (try cases lib.checkValid e.first) <;>
    simp <;> split_ifs <;> rfl

/-- An entry whose key is not recognised changes nothing. -/
theorem step_unrecognised (lib : Stdlib) (r : DataSetRequest) (e : url.Entry)
    (h : lib.ToLower e.key ∉ recognisedKeys) :
    ExtractDataSetRequestFromURI.step lib r e = r := by
  simp only [recognisedKeys, List.mem_cons, List.mem_singleton, not_or, List.mem_nil_iff,
    or_false] at h
  unfold ExtractDataSetRequestFromURI.step
  simp [h.1, h.2.1, h.2.2.1, h.2.2.2.1, h.2.2.2.2]

/-- The page size returned is the fold of the page-size steps from 15. -/
theorem extract_pageSize (lib : Stdlib) (query : url.Values) :
    (ExtractDataSetRequestFromURI lib query).PageSize =
      query.foldl (pageStep lib "pagesize") 15 :=
  foldl_project _ _ DataSetRequest.PageSize (step_pageSize lib) query _

/-- The page number returned is the fold of the page-number steps from 1. -/
theorem extract_pageNumber (lib : Stdlib) (query : url.Values) :
    (ExtractDataSetRequestFromURI lib query).PageNumber =
      query.foldl (pageStep lib "pagenumber") 1 :=
  foldl_project _ _ DataSetRequest.PageNumber (step_pageNumber lib) query _

/-- The sort direction returned is the fold of the direction steps from Asc. -/
theorem extract_sortDirection (lib : Stdlib) (query : url.Values) :
    (ExtractDataSetRequestFromURI lib query).SortDirection =
      query.foldl (directionStep lib) Asc :=
  foldl_project _ _ DataSetRequest.SortDirection (step_sortDirection lib) query _

/-- The filters returned are the nil map of the defaults. -/
theorem extract_filters (lib : Stdlib) (query : url.Values) :
    (ExtractDataSetRequestFromURI lib query).Filters = none :=
  (foldl_project (ExtractDataSetRequestFromURI.step lib) (fun f _ => f) DataSetRequest.Filters
    (step_filters lib) query _).trans (by
      induction query with
      | nil => rfl
      | cons a rest ih => simpa using ih)

/-- Only the entries whose key lower-cases to the name take part in the fold
of the page steps. -/
theorem pageStep_fold_filter (lib : Stdlib) (name : String) (query : url.Values) (c : Int) :
    query.foldl (pageStep lib name) c =
      (query.filter (fun x => decide (lib.ToLower x.key = name))).foldl (pageStep lib name) c := by
  induction query generalizing c with
  | nil => rfl
  | cons a rest ih =>
    by_cases h : lib.ToLower a.key = name
    · simp only [List.foldl_cons, List.filter_cons, h, decide_True, if_true]
      exact ih _
    · have h2 : pageStep lib name c a = c := by simp [pageStep, h]
      simp only [List.foldl_cons, List.filter_cons, h, decide_False, h2]
      exact ih _

/-- The page steps keep a value that is at least 1 at least 1. -/
theorem pageStep_fold_pos (lib : Stdlib) (name : String) (query : url.Values) (c : Int)
    (hc : 1 ≤ c) : 1 ≤ query.foldl (pageStep lib name) c := by
  induction query generalizing c with
  | nil => exact hc
  | cons a rest ih =>
    apply ih
    unfold pageStep
    split_ifs
    · cases lib.Atoi a.first with
      | none => exact hc
      | some n =>
        simp only
        split_ifs <;> omega
    · exact hc

/-- The direction steps give Desc as soon as one entry asks for it. -/
theorem directionStep_fold (lib : Stdlib) (query : url.Values) (c : String) :
    query.foldl (directionStep lib) c =
      if ∃ e ∈ query, lib.ToLower e.key = "sortdirection" ∧ lib.ToLower e.first = "desc"
      then Desc else c := by
  induction query generalizing c with
  | nil => simp
  | cons a rest ih =>
    rw [List.foldl_cons, ih]
    by_cases h : lib.ToLower a.key = "sortdirection" ∧ lib.ToLower a.first = "desc"
    · simp [directionStep, h]
    · have h2 : directionStep lib c a = c := by simp [directionStep, h]
      rw [h2]
      simp only [List.mem_cons, exists_eq_or_imp, h, false_or]

/-- Claim C12: when exactly one key lower-cases to pagesize (resp. pagenumber),
the page size (resp. page number) returned is the integer its first value
parses to when that is positive, and the default 15 (resp. 1) otherwise; the
function is total and always returns a page size and a page number of at
least 1. -/
theorem C12_paging_parameters (lib : Stdlib) (query : url.Values) :
    (∀ e : url.Entry, query.filter (fun x => decide (lib.ToLower x.key = "pagesize")) = [e] →
      (ExtractDataSetRequestFromURI lib query).PageSize =
        match lib.Atoi e.first with
        | some n => if n > 0 then n else 15
        | none => 15) ∧
    (∀ e : url.Entry, query.filter (fun x => decide (lib.ToLower x.key = "pagenumber")) = [e] →
      (ExtractDataSetRequestFromURI lib query).PageNumber =
        match lib.Atoi e.first with
        | some n => if n > 0 then n else 1
        | none => 1) ∧
    1 ≤ (ExtractDataSetRequestFromURI lib query).PageSize ∧
    1 ≤ (ExtractDataSetRequestFromURI lib query).PageNumber := by
  refine ⟨fun e he => ?_, fun e he => ?_, ?_, ?_⟩
  · have hk : lib.ToLower e.key = "pagesize" := by
      have : e ∈ query.filter (fun x => decide (lib.ToLower x.key = "pagesize")) := by simp [he]
      simpa using (List.mem_filter.mp this).2
    rw [extract_pageSize, pageStep_fold_filter, he]
    simp only [List.foldl_cons, List.foldl_nil, pageStep, hk, if_true]
  · have hk : lib.ToLower e.key = "pagenumber" := by
      have : e ∈ query.filter (fun x => decide (lib.ToLower x.key = "pagenumber")) := by simp [he]
      simpa using (List.mem_filter.mp this).2
    rw [extract_pageNumber, pageStep_fold_filter, he]
    simp only [List.foldl_cons, List.foldl_nil, pageStep, hk, if_true]
  · rw [extract_pageSize]
    exact pageStep_fold_pos lib _ query 15 (by decide)
  · rw [extract_pageNumber]
    exact pageStep_fold_pos lib _ query 1 (by decide)

/-- Witness for C12: the query pageSize=25, PAGENUMBER=x has one page-size key
and one page-number key; the page size returned is 25 and the page number,
whose value does not parse, stays 1. -/
theorem C12_paging_parameters_witness :
    [(⟨"pageSize", "25", []⟩ : url.Entry), ⟨"PAGENUMBER", "x", []⟩].filter
        (fun x => decide (sample.lib.ToLower x.key = "pagesize")) = [⟨"pageSize", "25", []⟩] ∧
    (ExtractDataSetRequestFromURI sample.lib
      [⟨"pageSize", "25", []⟩, ⟨"PAGENUMBER", "x", []⟩]).PageSize = 25 ∧
    [(⟨"pageSize", "25", []⟩ : url.Entry), ⟨"PAGENUMBER", "x", []⟩].filter
        (fun x => decide (sample.lib.ToLower x.key = "pagenumber")) =
      [⟨"PAGENUMBER", "x", []⟩] ∧
    (ExtractDataSetRequestFromURI sample.lib
      [⟨"pageSize", "25", []⟩, ⟨"PAGENUMBER", "x", []⟩]).PageNumber = 1 :=
  ⟨by decide,
    (C12_paging_parameters sample.lib [⟨"pageSize", "25", []⟩, ⟨"PAGENUMBER", "x", []⟩]).1
      ⟨"pageSize", "25", []⟩ (by decide),
    by decide,
    (C12_paging_parameters sample.lib [⟨"pageSize", "25", []⟩, ⟨"PAGENUMBER", "x", []⟩]).2.1
      ⟨"PAGENUMBER", "x", []⟩ (by decide)⟩

/-- Claim C13, evaluated on the code: for the query filters=\x7b"col1":"a"\x7d
the request returned has nil filters, whatever the library functions are: the
map is handed to `json.Unmarshal` by value, which returns an error for every
text, so the decoded filters are never stored. -/
theorem C13_filters_not_decoded (lib : Stdlib) :
    (ExtractDataSetRequestFromURI lib
      [⟨"filters", "\x7b\"col1\":\"a\"\x7d", []⟩]).Filters = none ∧
    (ExtractDataSetRequestFromURI lib
      [⟨"filters", "\x7b\"col1\":\"a\"\x7d", []⟩]).Filters ≠ some [("col1", "a")] := by
  rw [extract_filters]
  exact ⟨rfl, by simp⟩

/-- Claim C14: the request returned has nil filters for every query, so in
particular for every query whose filters value is not a well-formed JSON
object of string to string; the filters are never partially populated. -/
theorem C14_filters_nil_on_malformed (lib : Stdlib) (query : url.Values) :
    (ExtractDataSetRequestFromURI lib query).Filters = none :=
  extract_filters lib query

/-- Claim C15: the sort direction returned is Desc when some key lower-cases
to sortdirection with a first value that lower-cases to desc, and Asc in every
other case; it is always one of the two. -/
theorem C15_sort_direction (lib : Stdlib) (query : url.Values) :
    (ExtractDataSetRequestFromURI lib query).SortDirection =
      (if ∃ e ∈ query, lib.ToLower e.key = "sortdirection" ∧ lib.ToLower e.first = "desc"
        then "Desc" else "Asc") ∧
    ((ExtractDataSetRequestFromURI lib query).SortDirection = "Asc" ∨
      (ExtractDataSetRequestFromURI lib query).SortDirection = "Desc") := by
  rw [extract_sortDirection, directionStep_fold]
  constructor
  · rfl
  · split_ifs
    · exact Or.inr rfl
    · exact Or.inl rfl

/-- The request returned for a query without recognised keys, from any
starting request. -/
theorem foldl_step_unrecognised (lib : Stdlib) (query : url.Values) (r : DataSetRequest)
    (h : ∀ e ∈ query, lib.ToLower e.key ∉ recognisedKeys) :
    query.foldl (ExtractDataSetRequestFromURI.step lib) r = r := by
  induction query generalizing r with
  | nil => rfl
  | cons a rest ih =>
    rw [List.foldl_cons, step_unrecognised lib r a (h a (List.mem_cons_self _ _))]
    exact ih r (fun e he => h e (List.mem_cons_of_mem _ he))

/-- Claim C16: for every query none of whose keys lower-cases to pagesize,
pagenumber, sortcolumn, sortdirection or filters, the empty query included,
the request returned is exactly the default one: page size 15, page number 1,
sort column id, sort direction Asc, nil filters. -/
theorem C16_defaults (lib : Stdlib) (query : url.Values)
    (h : ∀ e ∈ query, lib.ToLower e.key ∉
      ["pagesize", "pagenumber", "sortcolumn", "sortdirection", "filters"]) :
    ExtractDataSetRequestFromURI lib query =
      { PageSize := 15, PageNumber := 1, SortColumn := "id", SortDirection := "Asc",
        Filters := none } :=
  foldl_step_unrecognised lib query _ h

/-- Witness for C16: the query verbose=1, PAGE=3 has no recognised key and
gives the default request. -/
theorem C16_defaults_witness :
    (∀ e ∈ [(⟨"verbose", "1", []⟩ : url.Entry), ⟨"PAGE", "3", ["4"]⟩],
      sample.lib.ToLower e.key ∉
        ["pagesize", "pagenumber", "sortcolumn", "sortdirection", "filters"]) ∧
    ExtractDataSetRequestFromURI sample.lib [⟨"verbose", "1", []⟩, ⟨"PAGE", "3", ["4"]⟩] =
      { PageSize := 15, PageNumber := 1, SortColumn := "id", SortDirection := "Asc",
        Filters := none } :=
  ⟨by decide,
    C16_defaults sample.lib [⟨"verbose", "1", []⟩, ⟨"PAGE", "3", ["4"]⟩] (by decide)⟩

/-- Claim C17: when the only key that lower-cases to pagesize has a first
value that parses as an integer that is not positive, the page size returned
is the default 15 and `ConstrainPagingRequest` with the bounds 1 and 100
leaves the request unchanged. -/
theorem C17_nonpositive_page_size (lib : Stdlib) (query : url.Values) (e : url.Entry)
    (n : Int) (he : query.filter (fun x => decide (lib.ToLower x.key = "pagesize")) = [e])
    (hn : lib.Atoi e.first = some n) (hle : n ≤ 0) :
    (ExtractDataSetRequestFromURI lib query).PageSize = 15 ∧
    ConstrainPagingRequest (ExtractDataSetRequestFromURI lib query) 1 100 =
      ExtractDataSetRequestFromURI lib query := by
  have hps : (ExtractDataSetRequestFromURI lib query).PageSize = 15 := by
    rw [extract_pageSize, pageStep_fold_filter, he]
    have : ¬ n > 0 := by omega
    simp [pageStep, hn, this]
  refine ⟨hps, ?_⟩
  unfold ConstrainPagingRequest
  simp [hps]

/-- Witness for C17: the query pageSize=0 gives page size 15 and the bounds 1
and 100 change nothing. -/
theorem C17_nonpositive_page_size_witness :
    [(⟨"pageSize", "0", []⟩ : url.Entry)].filter
        (fun x => decide (sample.lib.ToLower x.key = "pagesize")) = [⟨"pageSize", "0", []⟩] ∧
    sample.lib.Atoi "0" = some 0 ∧ (0 : Int) ≤ 0 ∧
    (ExtractDataSetRequestFromURI sample.lib [⟨"pageSize", "0", []⟩]).PageSize = 15 ∧
    ConstrainPagingRequest (ExtractDataSetRequestFromURI sample.lib [⟨"pageSize", "0", []⟩])
      1 100 = ExtractDataSetRequestFromURI sample.lib [⟨"pageSize", "0", []⟩] :=
  ⟨by decide, by decide, by decide,
    C17_nonpositive_page_size sample.lib [⟨"pageSize", "0", []⟩] ⟨"pageSize", "0", []⟩ 0
      (by decide) (by decide) (by decide)⟩

/-! ### The handlers -/

/-- The write call made for a validation failure carrying an error. -/
theorem writeOperationResult_validationFailed {V : Type} (w : ResponseWriter V)
    (e : GoError) :
    WriteOperationResult w (ValidationFailedResult (some e)) =
      w ++ [Write.WriteResponse 400 (.errorDetails { Message := e.Error })] := by
  simp [WriteOperationResult, ValidationFailedResult, crudOperationResult.State,
    crudOperationResult.Error, crudOperationResult.Value, ValidationFailed, Ok, Created,
    http.StatusBadRequest]

/-- The write call made for an error result carrying an error. -/
theorem writeOperationResult_error {V : Type} (w : ResponseWriter V) (e : GoError) :
    WriteOperationResult w (ErrorResult (some e)) =
      w ++ [Write.WriteResponse 500 (.errorDetails { Message := e.Error })] := by
  simp [WriteOperationResult, ErrorResult, crudOperationResult.State,
    crudOperationResult.Error, crudOperationResult.Value, Error, ValidationFailed, Ok, Created,
    NotFound, Conflict, NotSupportedByResource, http.StatusInternalServerError]

/-- When the handler is not panicking `Recovery` leaves the run as it is. -/
theorem deferRecover_recovery_none {V P E : Type} (w : ResponseWriter V)
    (calls : List (Call E)) :
    deferRecover (Recovery : RecoverFunc V P) none w calls =
      { w := w, calls := calls, panic := none } := by
  simp [deferRecover, Recovery]

/-- Claim C18: when the body of a create or of an update request fails to
decode with error e, the handler writes status 400 with the message
"Failed to parse entity from HTTP body: " followed by the text of e and nothing
else before the recover function runs, and makes no call on the service; when
decoding succeeds and the service returns, the service was called exactly once,
on the decoded entity, and the write is the one of its result. -/
theorem C18_decode_failure_short_circuits {V P E B : Type} (svc : Service V P E)
    (recoverFunc : RecoverFunc V P) (createFunc : Unit → E)
    (Decode : B → E → Option GoError × E) (w : ResponseWriter V) (idVar : String) (body : B) :
    (∀ (e : GoError) (entity : E), Decode body (createFunc ()) = (some e, entity) →
      CreateCrudHandlerCreateEntity svc recoverFunc createFunc Decode w body =
        deferRecover recoverFunc none
          (w ++ [Write.WriteResponse 400 (.errorDetails
            { Message := "Failed to parse entity from HTTP body: " ++ e.Error })]) [] ∧
      CreateCrudHandlerCreateEntity svc Recovery createFunc Decode w body =
        { w := w ++ [Write.WriteResponse 400 (.errorDetails
            { Message := "Failed to parse entity from HTTP body: " ++ e.Error })],
          calls := [], panic := none } ∧
      CreateCrudHandlerUpdateEntity svc recoverFunc createFunc Decode w idVar body =
        deferRecover recoverFunc none
          (w ++ [Write.WriteResponse 400 (.errorDetails
            { Message := "Failed to parse entity from HTTP body: " ++ e.Error })]) [] ∧
      CreateCrudHandlerUpdateEntity svc Recovery createFunc Decode w idVar body =
        { w := w ++ [Write.WriteResponse 400 (.errorDetails
            { Message := "Failed to parse entity from HTTP body: " ++ e.Error })],
          calls := [], panic := none }) ∧
    (∀ (entity : E) (r : OperationResult V), Decode body (createFunc ()) = (none, entity) →
      (svc.Add entity = .returns r →
        CreateCrudHandlerCreateEntity svc recoverFunc createFunc Decode w body =
          deferRecover recoverFunc none (WriteOperationResult w r) [Call.Add entity] ∧
        CreateCrudHandlerCreateEntity svc Recovery createFunc Decode w body =
          { w := WriteOperationResult w r, calls := [Call.Add entity], panic := none }) ∧
      (svc.Update idVar entity = .returns r →
        CreateCrudHandlerUpdateEntity svc recoverFunc createFunc Decode w idVar body =
          deferRecover recoverFunc none (WriteOperationResult w r)
            [Call.Update idVar entity] ∧
        CreateCrudHandlerUpdateEntity svc Recovery createFunc Decode w idVar body =
          { w := WriteOperationResult w r, calls := [Call.Update idVar entity],
            panic := none })) := by
  refine ⟨fun e entity hd => ?_, fun entity r hd => ⟨fun hs => ?_, fun hs => ?_⟩⟩
  · have hw := writeOperationResult_validationFailed w
      (errors.New ("Failed to parse entity from HTTP body: " ++ e.Error))
    simp only [errors.New, GoError.Error] at hw
    simp [CreateCrudHandlerCreateEntity, CreateCrudHandlerUpdateEntity,
      ReadEntityFromBody, hd, errors.New, GoError.Error, hw, deferRecover_recovery_none]
  · simp [CreateCrudHandlerCreateEntity, ReadEntityFromBody, hd, hs,
      deferRecover_recovery_none]
  · simp [CreateCrudHandlerUpdateEntity, ReadEntityFromBody, hd, hs,
      deferRecover_recovery_none]

/-- Witness for C18: with the sample decoder the empty body of a create request
is answered with status 400 and the message ending in EOF, without a call on
the service, and the body "x" of an update request of id 7 makes one call of
Update whose result is written. -/
theorem C18_decode_failure_short_circuits_witness :
    sample.Decode "" ((fun _ => "") ()) = (some ⟨"EOF"⟩, "") ∧
    CreateCrudHandlerCreateEntity sample.svc Recovery (fun _ => "") sample.Decode [] "" =
      { w := [Write.WriteResponse 400 (.errorDetails
          { Message := "Failed to parse entity from HTTP body: EOF" })],
        calls := [], panic := none } ∧
    sample.Decode "x" ((fun _ => "") ()) = (none, "x") ∧
    sample.svc.Update "7" "x" = .returns (OkResult (some 1)) ∧
    CreateCrudHandlerUpdateEntity sample.svc Recovery (fun _ => "") sample.Decode [] "7" "x" =
      { w := WriteOperationResult [] (OkResult (some 1)), calls := [Call.Update "7" "x"],
        panic := none } :=
  ⟨by decide,
    ((C18_decode_failure_short_circuits sample.svc Recovery (fun _ => "") sample.Decode []
      "7" "").1 ⟨"EOF"⟩ "" (by decide)).2.1,
    by decide, rfl,
    (((C18_decode_failure_short_circuits sample.svc Recovery (fun _ => "") sample.Decode []
      "7" "x").2 "x" (OkResult (some 1)) (by decide)).2 rfl).2⟩

/-- Claim C19: when `GetAll` panics in a list handler built with `Recovery`,
the handler writes status 500 with the message "Panic while handling request"
and nothing else, whatever the value of the panic, and the panic is recovered;
when nothing panics `Recovery` writes nothing. -/
theorem C19_recovery_on_panic {V P E : Type} (lib : Stdlib) (svc : Service V P E)
    (w : ResponseWriter V) (query : url.Values) :
    (∀ p : P, svc.GetAll (ExtractDataSetRequestFromURI lib query) = .panics p →
      CreateCrudHandlerGetList lib svc Recovery w query =
        { w := w ++ [Write.WriteResponse 500 (.errorDetails
            { Message := "Panic while handling request" })],
          calls := [Call.GetAll (ExtractDataSetRequestFromURI lib query)],
          panic := none }) ∧
    (∀ w' : ResponseWriter V, (Recovery : RecoverFunc V P) none w' = (w', true)) := by
  refine ⟨fun p hp => ?_, fun w' => rfl⟩
  have hw := writeOperationResult_error w (errors.New "Panic while handling request")
  simp only [errors.New, GoError.Error] at hw
  simp [CreateCrudHandlerGetList, hp, deferRecover, Recovery, errors.New, hw]

/-- Witness for C19: the sample service whose `GetAll` panics with "boom" is
answered, on the empty query, with status 500 and the fixed message. -/
theorem C19_recovery_on_panic_witness :
    sample.panicking.GetAll (ExtractDataSetRequestFromURI sample.lib []) = .panics "boom" ∧
    CreateCrudHandlerGetList sample.lib sample.panicking Recovery [] [] =
      { w := [Write.WriteResponse 500 (.errorDetails
          { Message := "Panic while handling request" })],
        calls := [Call.GetAll (ExtractDataSetRequestFromURI sample.lib [])],
        panic := none } :=
  ⟨rfl, (C19_recovery_on_panic sample.lib sample.panicking [] []).1 "boom" rfl⟩

/-- Claim C20: the list handler calls `GetAll` exactly once, on the request
`ExtractDataSetRequestFromURI` returns for the query; when `GetAll` returns,
the handler has written what `WriteOperationResult` writes for that result
when the recover function runs, and neither `Recovery` nor the empty recover
function of the test adds to it; for the empty query and a service returning
`OkResult` of a data set the status is 200. -/
theorem C20_get_list {V P E : Type} (lib : Stdlib) (svc : Service V P E)
    (recoverFunc : RecoverFunc V P) (w : ResponseWriter V) (query : url.Values) :
    (CreateCrudHandlerGetList lib svc recoverFunc w query).calls =
      [Call.GetAll (ExtractDataSetRequestFromURI lib query)] ∧
    (∀ r : OperationResult V,
      svc.GetAll (ExtractDataSetRequestFromURI lib query) = .returns r →
      CreateCrudHandlerGetList lib svc recoverFunc w query =
        deferRecover recoverFunc none (WriteOperationResult w r)
          [Call.GetAll (ExtractDataSetRequestFromURI lib query)] ∧
      CreateCrudHandlerGetList lib svc Recovery w query =
        { w := WriteOperationResult w r,
          calls := [Call.GetAll (ExtractDataSetRequestFromURI lib query)], panic := none } ∧
      CreateCrudHandlerGetList lib svc TestCreateCrudHandlerGetList_WithoutParameters.recovery
          w query =
        { w := WriteOperationResult w r,
          calls := [Call.GetAll (ExtractDataSetRequestFromURI lib query)], panic := none }) ∧
    (∀ ds : V, svc.GetAll (ExtractDataSetRequestFromURI lib []) = .returns (OkResult (some ds)) →
      statusWritten w (CreateCrudHandlerGetList lib svc
        TestCreateCrudHandlerGetList_WithoutParameters.recovery w []).w = [200] ∧
      statusWritten w (CreateCrudHandlerGetList lib svc Recovery w []).w = [200]) := by
  refine ⟨?_, fun r hr => ?_, fun ds hds => ?_⟩
  · unfold CreateCrudHandlerGetList
    cases h : svc.GetAll (ExtractDataSetRequestFromURI lib query) <;> simp [h, deferRecover]
  · simp [CreateCrudHandlerGetList, hr, deferRecover_recovery_none]
    simp [deferRecover, TestCreateCrudHandlerGetList_WithoutParameters.recovery]
  · have hs := writeOperationResult_status w Ok none (some ds)
    simp only [if_true] at hs
    simp only [CreateCrudHandlerGetList, hds, deferRecover_recovery_none]
    simp only [deferRecover, TestCreateCrudHandlerGetList_WithoutParameters.recovery]
    exact ⟨hs, hs⟩

/-- Witness for C20: on the empty query the sample service returns `OkResult`
of a data set, is called once on the default request, and the status written
is 200. -/
theorem C20_get_list_witness :
    sample.svc.GetAll (ExtractDataSetRequestFromURI sample.lib []) =
      .returns (OkResult (some 0)) ∧
    CreateCrudHandlerGetList sample.lib sample.svc
        TestCreateCrudHandlerGetList_WithoutParameters.recovery [] [] =
      { w := WriteOperationResult [] (OkResult (some 0)),
        calls := [Call.GetAll (ExtractDataSetRequestFromURI sample.lib [])], panic := none } ∧
    statusWritten [] (CreateCrudHandlerGetList sample.lib sample.svc
      TestCreateCrudHandlerGetList_WithoutParameters.recovery [] []).w = [200] :=
  ⟨rfl,
    ((C20_get_list sample.lib sample.svc Recovery [] []).2.1 (OkResult (some 0)) rfl).2.2,
    ((C20_get_list sample.lib sample.svc Recovery [] []).2.2 0 rfl).1⟩

/-! ### States outside the declared ones -/

/-- Claim C21: for a result whose state is none of the seven declared states
`WriteOperationResult` writes status 500, with the error payload
`{message: error text}` when the error is non-nil and an empty body when it is
nil; the value is not written. -/
theorem C21_undeclared_state {V : Type} (w : ResponseWriter V) (s : State)
    (e : Option GoError) (v : Option V)
    (h : s ∉ [Ok, ValidationFailed, Error, NotFound, Conflict, NotSupportedByResource,
      Created]) :
    statusWritten w (WriteOperationResult w ⟨s, e, v⟩) = [500] ∧
    bodyWritten w (WriteOperationResult w ⟨s, e, v⟩) =
      [e.map (fun err => .errorDetails { Message := err.Error })] := by
  simp only [List.mem_cons, List.mem_singleton, not_or, List.mem_nil_iff, or_false] at h
  obtain ⟨h1, h2, h3, h4, h5, h6, h7⟩ := h
  constructor
  · rw [writeOperationResult_status]
    simp [h1, h2, h4, h5, h6, h7]
  · rw [writeOperationResult_body]
    simp only [h4, if_false, h1, false_and]
    rfl

/-- Witness for C21: the states 0 and 8 are not declared; a result of state 0
with the error "boom" and the value 3 is answered with status 500 and the
error payload, a result of state 8 without error with status 500 and an empty
body. -/
theorem C21_undeclared_state_witness :
    ((0 : State) ∉ [Ok, ValidationFailed, Error, NotFound, Conflict, NotSupportedByResource,
      Created] ∧
      statusWritten [] (WriteOperationResult ([] : ResponseWriter Nat)
        ⟨0, some (errors.New "boom"), some 3⟩) = [500] ∧
      bodyWritten [] (WriteOperationResult ([] : ResponseWriter Nat)
        ⟨0, some (errors.New "boom"), some 3⟩) =
        [some (.errorDetails { Message := "boom" })]) ∧
    ((8 : State) ∉ [Ok, ValidationFailed, Error, NotFound, Conflict, NotSupportedByResource,
      Created] ∧
      statusWritten [] (WriteOperationResult ([] : ResponseWriter Nat) ⟨8, none, some 3⟩)
        = [500] ∧
      bodyWritten [] (WriteOperationResult ([] : ResponseWriter Nat) ⟨8, none, some 3⟩)
        = [none]) :=
  ⟨⟨by decide, C21_undeclared_state [] 0 (some (errors.New "boom")) (some 3) (by decide)⟩,
    ⟨by decide, C21_undeclared_state [] 8 none (some 3) (by decide)⟩⟩

/-! ### Order of the query entries -/

/-- The sort column after one entry. -/
theorem step_sortColumn (lib : Stdlib) (r : DataSetRequest) (e : url.Entry) :
    (ExtractDataSetRequestFromURI.step lib r e).SortColumn =
      sortColumnStep lib r.SortColumn e := by
  unfold ExtractDataSetRequestFromURI.step sortColumnStep json.Unmarshal
  simp only
  split_ifs <;> (try cases lib.Atoi e.first) <;> (try cases lib.checkValid e.first) <;>
    simp_all <;> split_ifs <;> rfl

/-- Two requests with the same five fields are equal. -/
theorem dataSetRequest_ext (r r' : DataSetRequest) (h1 : r.PageSize = r'.PageSize)
    (h2 : r.PageNumber = r'.PageNumber) (h3 : r.SortColumn = r'.SortColumn)
    (h4 : r.SortDirection = r'.SortDirection) (h5 : r.Filters = r'.Filters) : r = r' := by
  cases r
  cases r'
  simp_all

/-- Two page steps of entries whose lower-cased keys differ commute. -/
theorem pageStep_comm (lib : Stdlib) (name : String) (c : Int) (x y : url.Entry)
    (h : lib.ToLower x.key ≠ lib.ToLower y.key) :
    pageStep lib name (pageStep lib name c x) y = pageStep lib name (pageStep lib name c y) x := by
  by_cases hx : lib.ToLower x.key = name
  · have hy : ¬ lib.ToLower y.key = name := fun hy => h (hx.trans hy.symm)
    simp [pageStep, hx, hy]
  · simp [pageStep, hx]

/-- Two sort-column steps of entries whose lower-cased keys differ commute. -/
theorem sortColumnStep_comm (lib : Stdlib) (c : String) (x y : url.Entry)
    (h : lib.ToLower x.key ≠ lib.ToLower y.key) :
    sortColumnStep lib (sortColumnStep lib c x) y =
      sortColumnStep lib (sortColumnStep lib c y) x := by
  by_cases hx : lib.ToLower x.key = "sortcolumn"
  · have hy : ¬ lib.ToLower y.key = "sortcolumn" := fun hy => h (hx.trans hy.symm)
    simp [sortColumnStep, hx, hy]
  · simp [sortColumnStep, hx]

/-- Two direction steps always commute. -/
theorem directionStep_comm (lib : Stdlib) (c : String) (x y : url.Entry) :
    directionStep lib (directionStep lib c x) y =
      directionStep lib (directionStep lib c y) x := by
  unfold directionStep
  split_ifs <;> rfl

/-- The loop body commutes on two entries whose lower-cased keys differ. -/
theorem step_comm (lib : Stdlib) (r : DataSetRequest) (x y : url.Entry)
    (h : lib.ToLower x.key ≠ lib.ToLower y.key) :
    ExtractDataSetRequestFromURI.step lib (ExtractDataSetRequestFromURI.step lib r x) y =
      ExtractDataSetRequestFromURI.step lib (ExtractDataSetRequestFromURI.step lib r y) x := by
  apply dataSetRequest_ext
  · simp only [step_pageSize]
    exact pageStep_comm lib _ _ x y h
  · simp only [step_pageNumber]
    exact pageStep_comm lib _ _ x y h
  · simp only [step_sortColumn]
    exact sortColumnStep_comm lib _ x y h
  · simp only [step_sortDirection]
    exact directionStep_comm lib _ x y
  · simp only [step_filters]

/-- Claim C22: for a query whose keys are pairwise distinct after lower-casing,
`ExtractDataSetRequestFromURI` returns the same request for every order in
which the entries of the query are visited. -/
theorem C22_order_independent (lib : Stdlib) (query visited : url.Values)
    (hperm : visited.Perm query)
    (hdistinct : (query.map (fun e => lib.ToLower e.key)).Nodup) :
    ExtractDataSetRequestFromURI lib visited = ExtractDataSetRequestFromURI lib query := by
  unfold ExtractDataSetRequestFromURI
  apply List.Perm.foldl_eq' hperm
  intro x hx y hy z
  by_cases hxy : x = y
  · rw [hxy]
  · apply step_comm
    intro hk
    exact hxy (List.inj_on_of_nodup_map hdistinct (hperm.mem_iff.mp hx) (hperm.mem_iff.mp hy) hk)

/-- Witness for C22: the query pageSize=25, sortDirection=DESC, sortColumn=name
has distinct lower-cased keys and gives the same request when its entries are
visited in the reverse order. -/
theorem C22_order_independent_witness :
    List.Perm
      [(⟨"sortColumn", "name", []⟩ : url.Entry), ⟨"sortDirection", "DESC", []⟩,
        ⟨"pageSize", "25", []⟩]
      [⟨"pageSize", "25", []⟩, ⟨"sortDirection", "DESC", []⟩, ⟨"sortColumn", "name", []⟩] ∧
    ([(⟨"pageSize", "25", []⟩ : url.Entry), ⟨"sortDirection", "DESC", []⟩,
        ⟨"sortColumn", "name", []⟩].map (fun e => sample.lib.ToLower e.key)).Nodup ∧
    ExtractDataSetRequestFromURI sample.lib
        [⟨"sortColumn", "name", []⟩, ⟨"sortDirection", "DESC", []⟩, ⟨"pageSize", "25", []⟩] =
      ExtractDataSetRequestFromURI sample.lib
        [⟨"pageSize", "25", []⟩, ⟨"sortDirection", "DESC", []⟩, ⟨"sortColumn", "name", []⟩] :=
  ⟨by decide, by decide,
    C22_order_independent sample.lib
      [⟨"pageSize", "25", []⟩, ⟨"sortDirection", "DESC", []⟩, ⟨"sortColumn", "name", []⟩]
      [⟨"sortColumn", "name", []⟩, ⟨"sortDirection", "DESC", []⟩, ⟨"pageSize", "25", []⟩]
      (by decide) (by decide)⟩

/-- Without the hypothesis of distinct lower-cased keys the order matters: the
keys pageSize and PAGESIZE collide and the entry visited last decides. -/
theorem extract_colliding_keys_order :
    (ExtractDataSetRequestFromURI sample.lib
      [⟨"pageSize", "10", []⟩, ⟨"PAGESIZE", "20", []⟩]).PageSize = 20 ∧
    (ExtractDataSetRequestFromURI sample.lib
      [⟨"PAGESIZE", "20", []⟩, ⟨"pageSize", "10", []⟩]).PageSize = 10 := by
  decide

end crud
